import Mathlib

/-!
# Desktop OAuth client (`GoogleDesktopOAuth.h`, `GoogleDesktopOAuth.cpp`)

A shallow embedding of `FGoogleDesktopOAuth`.

Conventions of the embedding.

* `FString` is `String`. The engine's `operator==` on `FString` ignores the case
  of the letters: it is `FStringEquals`. A lookup by key is `TMapFind`, and the
  statements about a field are phrased through the result of the lookup.
* `int64` and `int32` values are `Int`; the one arithmetic operation of the
  class, the `int64` sum that gives `ExpiresOn`, is wrapped by `wrapInt64`.
  `FJsonObject::GetIntegerField` returns an `int32`: the number of the field
  goes through `CastToInt32`.
* A caller-supplied `TFunction` is an identity (`Nat`); invoking it is an
  `Event` that records the identity and the arguments. A run of the code is
  the list of events it causes, in program order. Log lines are not events.
* A run that dereferences a null pointer has no result: `none`.
* The engine's JSON reader and the helper `FHttpUtils::BuildUrlEncodedPayload`
  are not part of the sources; they are the fields of `Externals`, and every
  statement holds for all of them.
-/

set_option autoImplicit false
set_option maxRecDepth 100000

namespace FGoogleDesktopOAuth

/-! ## Data model -/

/-- Resulting statuses of the OAuth operations (`enum class Status`). -/
inductive Status where
  | kSuccessCode
  | kUnsupportedResponseContentTypeCode
  | kInvalidResponseFormatCode
  | kUnknownErrorCode
  | kConnectionErrorCode
  | kInvalidGrantErrorCode
  deriving DecidableEq, Repr

/-- Authentication method of the desktop flow (`enum class AuthenticationMethod`). -/
inductive AuthenticationMethod where
  | LoopbackIp
  deriving DecidableEq, Repr

/-- Completion status of an outbound request (the engine's `EHttpRequestStatus`). -/
inductive EHttpRequestStatus where
  | NotStarted
  | Processing
  | Failed
  | Failed_ConnectionError
  | Succeeded
  deriving DecidableEq, Repr

/-- Value of a JSON field (the engine's `FJsonValue`). The content of an array
or of a nested object is never inspected by this class and is not kept. -/
inductive FJsonValue where
  | Null
  | Boolean (Value : Bool)
  | Number (Value : Int)
  | String (Value : String)
  | Array
  | Object
  deriving DecidableEq, Repr

/-- Parsed JSON document (the engine's `FJsonObject`): its fields by name. -/
structure FJsonObject where
  Values : List (String × FJsonValue)
  deriving DecidableEq, Repr

/-- Document made by `MakeShared<FJsonObject>()`: no field. -/
def FJsonObject.MakeShared : FJsonObject := ⟨[]⟩

/-- Lookup of a key in a `TMap<FString, _>` (`TMap::Find`). -/
def TMapFind {β : Type} (Map : List (String × β)) (Key : String) : Option β :=
  (Map.find? (fun kv => kv.1 == Key)).map (fun kv => kv.2)

/-- Typed extraction of a string field (`FJsonObject::TryGetStringField`):
the value when the field is present and is a string, nothing otherwise. -/
def FJsonObject.TryGetStringField (Data : FJsonObject) (FieldName : String) :
    Option String :=
  match TMapFind Data.Values FieldName with
  | some (FJsonValue.String Value) => some Value
  | _ => none

/-- Comparison of two `FString`s by the engine's `operator==`: the case of the
letters `A` to `Z` is ignored. -/
def FStringEquals (Lhs Rhs : String) : Bool :=
  Lhs.data.map Char.toLower == Rhs.data.map Char.toLower

/-- Conversion `(int32)Number` made by `FJsonObject::GetIntegerField`: a number
in the range of `int32` is kept. The language gives no value to the conversion
of a number outside that range; the value the platform produces is
`OutOfRange Number`. -/
def CastToInt32 (OutOfRange : Int → Int) (Number : Int) : Int :=
  if -2 ^ 31 ≤ Number ∧ Number < 2 ^ 31 then Number else OutOfRange Number

/-- Unchecked extraction of an integer field (`FJsonObject::GetIntegerField`):
the number, converted to `int32`, when the field is present and numeric; a
missing or non-numeric field reads as `0` (the engine only logs it). -/
def FJsonObject.GetIntegerField (OutOfRange : Int → Int) (Data : FJsonObject)
    (FieldName : String) : Int :=
  match TMapFind Data.Values FieldName with
  | some (FJsonValue.Number Value) => CastToInt32 OutOfRange Value
  | _ => 0

/-- Response of an outbound request (the engine's `IHttpResponse`). -/
structure FHttpResponse where
  ResponseCode : Int
  ContentType : String
  ContentAsString : String
  deriving DecidableEq, Repr

/-- Outbound request as seen by its completion delegate (`IHttpRequest`). -/
structure FHttpRequest where
  Status : EHttpRequestStatus
  deriving DecidableEq, Repr

/-- Parts of the program that are outside the sources. -/
structure Externals where
  /-- Reader of the engine: `FJsonSerializer::Deserialize`, `none` when the text
  is not a JSON object. -/
  Deserialize : String → Option FJsonObject
  /-- Helper `FHttpUtils::BuildUrlEncodedPayload`, from the fields in insertion
  order to the encoded text. -/
  BuildUrlEncodedPayload : List (String × String) → String
  /-- Value that the platform gives to `(int32)Number` for a number outside the
  range of `int32`. -/
  Int32OutOfRange : Int → Int

/-- Wrap of an integer to the range of `int64` (two's complement). -/
def wrapInt64 (x : Int) : Int := (x + 2 ^ 63) % 2 ^ 64 - 2 ^ 63

/-! ## Constants of the class -/

def kGoogleRefreshTokenUrl : String := "https://oauth2.googleapis.com/token"
def kGoogleRefreshTokenClientIdField : String := "client_id"
def kGoogleRefreshTokenClientSecretField : String := "client_secret"
def kGoogleRefreshTokenRefreshTokenField : String := "refresh_token"
def kGoogleRefreshTokenGrantTypeField : String := "grant_type"
def kGoogleRefreshTokenGrantTypeValue : String := "refresh_token"
def kGoogleRefreshTokenResponseAccessTokenField : String := "access_token"
def kGoogleRefreshTokenResponseExpiresInField : String := "expires_in"
def kManualAuthenticationUrlBase : String :=
  "https://accounts.google.com/o/oauth2/v2/auth?"
def kManualAuthenticationScopeField : String := "scope"
def kManualAuthenticationResponseTypeField : String := "response_type"
def kManualAuthenticationResponseTypeValue : String := "code"
def kManualAuthenticationRedirectUriField : String := "redirect_uri"
def kManualAuthenticationClientIdField : String := "client_id"
def kLoopbackAddressBase : String := "http://127.0.0.1:"
def kLoopbackAddressPath : String := "/google_oauth"
def kManualAuthenticationResponseCodeField : String := "code"
def kManualAuthenticationResponseErrorField : String := "error"
def kCodeExchangeUrlBase : String := "https://oauth2.googleapis.com/token"
def kCodeExchangeCodeField : String := "code"
def kCodeExchangeClientIdField : String := "client_id"
def kCodeExchangeClientSecretField : String := "client_secret"
def kCodeExchangeRedirectUriField : String := "redirect_uri"
def kCodeExchangeGrantTypeField : String := "grant_type"
def kCodeExchangeGrantTypeValue : String := "authorization_code"
def kCodeExchangeResponseAccessTokenField : String := "access_token"
def kCodeExchangeResponseExpiresInField : String := "expires_in"
def kCodeExchangeResponseRefreshTokenField : String := "refresh_token"
def kInvalidGrantErrorCode : String := "invalid_grant"
def kJsonContentType : String := "application/json"
def kHtmlContentType : String := "text/html"
def kUrlencodedContentType : String := "application/x-www-form-urlencoded"
def kContentTypeHeader : String := "Content-Type"
def kPostMethod : String := "POST"
def kGetMethod : String := "GET"
def kGoogleRefreshTokenResponseErrorCodeField : String := "error"
def kGoogleRefreshTokenResponseErrorField : String := "error_description"
def kUserInfoUrlBase : String :=
  "https://openidconnect.googleapis.com/v1/userinfo?access_token="

/-! ## Classification of a completed request -/

/-- Modelled from the spec: `FHttpUtils::ExtractMimeFromContentType` is a helper
of the repository whose source is missing. The spec says it extracts the MIME
type ignoring parameters (it strips `; charset=...`): the text before the first
semicolon. -/
def ExtractMimeFromContentType (ContentType : String) : String :=
  String.mk (ContentType.data.takeWhile (fun c => c != ';'))

/-- Embedding of `FGoogleDesktopOAuth::HandleResultOfRequest`. The two
continuations are the two callback parameters; `Response` is the nullable
`FHttpResponsePtr`, read only when the request status is not
`Failed_ConnectionError`. `bWasSuccessful` is received and never read. The
document starts as `MakeShared<FJsonObject>()` and the reader replaces it only
when it succeeds. The two tests `==` compare `FString`s: `FStringEquals`. -/
def HandleResultOfRequest {α : Type} (X : Externals) (Request : FHttpRequest)
    (Response : Option FHttpResponse) (_bWasSuccessful : Bool)
    (SuccessfulRequestCallback : FJsonObject → Status → α)
    (FailedRequestCallback : Status → α) : Option α :=
  if Request.Status ≠ EHttpRequestStatus.Failed_ConnectionError then
    match Response with
    | none => none
    | some Response =>
      let ResponseCode := Response.ResponseCode
      let ResponseContentType := ExtractMimeFromContentType Response.ContentType
      if FStringEquals ResponseContentType kJsonContentType then
        let JsonObject : FJsonObject :=
          (X.Deserialize Response.ContentAsString).getD FJsonObject.MakeShared
        if ResponseCode ≥ 200 ∧ ResponseCode < 300 then
          some (SuccessfulRequestCallback JsonObject Status.kSuccessCode)
        else
          let ErrorCode : String :=
            (JsonObject.TryGetStringField
              kGoogleRefreshTokenResponseErrorCodeField).getD ""
          if FStringEquals ErrorCode kInvalidGrantErrorCode then
            some (FailedRequestCallback Status.kInvalidGrantErrorCode)
          else
            some (FailedRequestCallback Status.kUnknownErrorCode)
      else
        some (FailedRequestCallback Status.kUnsupportedResponseContentTypeCode)
  else
    some (FailedRequestCallback Status.kConnectionErrorCode)

/-- Outcome of a classification: which continuation was invoked, with what. -/
inductive RequestOutcome where
  | Success (Data : FJsonObject) (Code : Status)
  | Failure (Code : Status)
  deriving DecidableEq, Repr

/-- Classification made by `HandleResultOfRequest`: the function run with
continuations that record their arguments. -/
def Classify (X : Externals) (Request : FHttpRequest)
    (Response : Option FHttpResponse) (bWasSuccessful : Bool) :
    Option RequestOutcome :=
  HandleResultOfRequest X Request Response bWasSuccessful
    RequestOutcome.Success RequestOutcome.Failure

/-! ## Effects -/

/-- Completion delegates that the class binds to its outbound requests: the
three lambdas passed to `OnProcessRequestComplete().BindLambda`, each with the
caller's callback it captures. -/
inductive HttpRequestCallback where
  | RefreshAuthToken (Callback : Nat)
  | CodeExchange (Callback : Nat)
  | CheckAccessToken (Callback : Nat)
  deriving DecidableEq, Repr

/-- Outbound request as built before `ProcessRequest()`. -/
structure FHttpRequestData where
  Verb : String
  Headers : List (String × String)
  URL : String
  Content : String
  OnProcessRequestComplete : HttpRequestCallback
  deriving DecidableEq, Repr

/-- Observable effects of the class, in program order. -/
inductive Event where
  /-- Effect of `FPlatformProcess::LaunchURL`. -/
  | LaunchURL (URL : String)
  /-- Effect of `Request->ProcessRequest()`. -/
  | ProcessRequest (Request : FHttpRequestData)
  /-- Answer to the browser: `OnComplete(FHttpServerResponse::Create(Body))`. -/
  | OnComplete (OnComplete : Nat) (Body : String)
  /-- Invocation of a `RefreshCallbackType`. -/
  | RefreshCallback (Callback : Nat) (Token : String) (ExpiresOn : Int)
      (Code : Status)
  /-- Invocation of a `ManualAuthenticationCallbackType`. -/
  | ManualAuthenticationCallback (Callback : Nat) (Token : String)
      (ExpiresOn : Int) (RefreshToken : String) (Code : Status)
  /-- Invocation of an `AccessTokenCheckCallbackType`. -/
  | AccessTokenCheckCallback (Callback : Nat) (Code : Status)
  deriving DecidableEq, Repr

/-! ## Token refresh -/

/-- Embedding of `FGoogleDesktopOAuth::RefreshAuthTokenImpl`: the request it
sends. -/
def RefreshAuthTokenImpl (X : Externals) (Callback : HttpRequestCallback)
    (ClientID ClientSecret GrantType RefreshToken : String) : List Event :=
  let Params : List (String × String) :=
    [(kGoogleRefreshTokenClientIdField, ClientID),
     (kGoogleRefreshTokenClientSecretField, ClientSecret),
     (kGoogleRefreshTokenRefreshTokenField, RefreshToken),
     (kGoogleRefreshTokenGrantTypeField, GrantType)]
  let Content := X.BuildUrlEncodedPayload Params
  [Event.ProcessRequest
    { Verb := kPostMethod
      Headers := [(kContentTypeHeader, kUrlencodedContentType)]
      URL := kGoogleRefreshTokenUrl
      Content := Content
      OnProcessRequestComplete := Callback }]

/-- Embedding of `FGoogleDesktopOAuth::RefreshAuthToken`: the call itself. -/
def RefreshAuthToken (X : Externals) (Callback : Nat)
    (ClientId ClientSecret RefreshToken : String) : List Event :=
  RefreshAuthTokenImpl X (HttpRequestCallback.RefreshAuthToken Callback)
    ClientId ClientSecret kGoogleRefreshTokenGrantTypeValue RefreshToken

/-- Completion lambda of `RefreshAuthToken` (lines 32-75 of the source). `Now`
is `FDateTime::Now().ToUnixTimestamp()` at the completion. -/
def RefreshAuthToken.OnProcessRequestComplete (X : Externals) (Now : Int)
    (Callback : Nat) (Request : FHttpRequest) (Response : Option FHttpResponse)
    (bWasSuccessful : Bool) : Option (List Event) :=
  HandleResultOfRequest X Request Response bWasSuccessful
    (fun Data _Code =>
      match Data.TryGetStringField kGoogleRefreshTokenResponseAccessTokenField with
      | none =>
        [Event.RefreshCallback Callback "" 0 Status.kInvalidResponseFormatCode]
      | some AccessToken =>
        let ExpiresIn := Data.GetIntegerField X.Int32OutOfRange
          kGoogleRefreshTokenResponseExpiresInField
        let ExpiresOn := wrapInt64 (Now + ExpiresIn)
        [Event.RefreshCallback Callback AccessToken ExpiresOn Status.kSuccessCode])
    (fun Code => [Event.RefreshCallback Callback "" 0 Code])

/-! ## Access token check -/

/-- Embedding of `FGoogleDesktopOAuth::CheckAccessToken`: the call itself. -/
def CheckAccessToken (Callback : Nat) (AccessToken : String) : List Event :=
  let Url := kUserInfoUrlBase ++ AccessToken
  [Event.ProcessRequest
    { Verb := kGetMethod
      Headers := [(kContentTypeHeader, kUrlencodedContentType)]
      URL := Url
      Content := ""
      OnProcessRequestComplete := HttpRequestCallback.CheckAccessToken Callback }]

/-- Completion lambda of `CheckAccessToken` (lines 409-431 of the source). -/
def CheckAccessToken.OnProcessRequestComplete (X : Externals) (Callback : Nat)
    (Request : FHttpRequest) (Response : Option FHttpResponse)
    (bWasSuccessful : Bool) : Option (List Event) :=
  HandleResultOfRequest X Request Response bWasSuccessful
    (fun _Data _Code => [Event.AccessTokenCheckCallback Callback Status.kSuccessCode])
    (fun Code => [Event.AccessTokenCheckCallback Callback Code])

/-! ## Manual authentication -/

/-- Verbs of an inbound request (the engine's `EHttpServerRequestVerbs`). -/
inductive EHttpServerRequestVerbs where
  | VERB_GET
  | VERB_POST
  | VERB_PUT
  | VERB_PATCH
  | VERB_DELETE
  | VERB_OPTIONS
  deriving DecidableEq, Repr

/-- Inbound request of the loopback server (the engine's `FHttpServerRequest`). -/
structure FHttpServerRequest where
  RelativePath : String
  Verb : EHttpServerRequestVerbs
  QueryParams : List (String × String)
  deriving DecidableEq, Repr

/-- Embedding of `FGoogleDesktopOAuth::Answer`. -/
def Answer (OnComplete : Nat) (Title Message : String) : List Event :=
  [Event.OnComplete OnComplete
    ("<!doctype><html><head><title>" ++ Title ++ "</title></head><body>" ++
      Message ++ " You can now close the tab. </body></html>")]

/-- Completion lambda of the code exchange (lines 311-361 of the source). -/
def CodeExchange.OnProcessRequestComplete (X : Externals) (Now : Int)
    (Callback : Nat) (Request : FHttpRequest) (Response : Option FHttpResponse)
    (bWasSuccessful : Bool) : Option (List Event) :=
  HandleResultOfRequest X Request Response bWasSuccessful
    (fun Data _Code =>
      let AccessToken := Data.TryGetStringField kCodeExchangeResponseAccessTokenField
      let RefreshToken := Data.TryGetStringField kCodeExchangeResponseRefreshTokenField
      match AccessToken, RefreshToken with
      | some AccessToken, some RefreshToken =>
        let ExpiresIn := Data.GetIntegerField X.Int32OutOfRange
          kCodeExchangeResponseExpiresInField
        let ExpiresOn := wrapInt64 (Now + ExpiresIn)
        [Event.ManualAuthenticationCallback Callback AccessToken ExpiresOn
          RefreshToken Status.kSuccessCode]
      | _, _ =>
        [Event.ManualAuthenticationCallback Callback "" 0 ""
          Status.kInvalidResponseFormatCode])
    (fun Code => [Event.ManualAuthenticationCallback Callback "" 0 "" Code])

/-- Run of a completion delegate when its request completes. -/
def HttpRequestCallback.Execute (X : Externals) (Now : Int) :
    HttpRequestCallback → FHttpRequest → Option FHttpResponse → Bool →
      Option (List Event)
  | HttpRequestCallback.RefreshAuthToken Callback =>
    RefreshAuthToken.OnProcessRequestComplete X Now Callback
  | HttpRequestCallback.CodeExchange Callback =>
    CodeExchange.OnProcessRequestComplete X Now Callback
  | HttpRequestCallback.CheckAccessToken Callback =>
    CheckAccessToken.OnProcessRequestComplete X Callback

/-- Embedding of `FGoogleDesktopOAuth::HandleTheResultOfLoopbackAuthentication`.
Without `code` the function reads `**Error` for its log line: when the query
has no `error` either, that dereferences the null result of `Find`. -/
def HandleTheResultOfLoopbackAuthentication (X : Externals) (Callback : Nat)
    (OnComplete : Nat) (RedirectUri ClientId ClientSecret : String)
    (Request : FHttpServerRequest) : Option (List Event) :=
  match TMapFind Request.QueryParams kManualAuthenticationResponseCodeField with
  | some Code =>
    let Params : List (String × String) :=
      [(kCodeExchangeCodeField, Code),
       (kCodeExchangeClientIdField, ClientId),
       (kCodeExchangeClientSecretField, ClientSecret),
       (kCodeExchangeRedirectUriField, RedirectUri),
       (kCodeExchangeGrantTypeField, kCodeExchangeGrantTypeValue)]
    let Content := X.BuildUrlEncodedPayload Params
    some (Answer OnComplete "Authentication succeed"
        "Authentication succeed. Return to the VO Importer, please." ++
      [Event.ProcessRequest
        { Verb := kPostMethod
          Headers := [(kContentTypeHeader, kUrlencodedContentType)]
          URL := kCodeExchangeUrlBase
          Content := Content
          OnProcessRequestComplete := HttpRequestCallback.CodeExchange Callback }])
  | none =>
    match TMapFind Request.QueryParams kManualAuthenticationResponseErrorField with
    | none => none
    | some _Error =>
      some (Answer OnComplete "Authentication failed"
          "Authentication failed. Return to the VO Importer, please." ++
        [Event.ManualAuthenticationCallback Callback "" 0 ""
          Status.kInvalidGrantErrorCode])

/-- Endpoint handler bound by `AuthenticateManually` (the lambda of lines
229-240 of the source): the values it captures. -/
structure FHttpRequestHandler where
  Callback : Nat
  RedirectUri : String
  ClientId : String
  ClientSecret : String
  deriving DecidableEq, Repr

/-- Body of the endpoint handler. -/
def FHttpRequestHandler.Execute (X : Externals) (Handler : FHttpRequestHandler)
    (Request : FHttpServerRequest) (OnComplete : Nat) : Option (List Event) :=
  HandleTheResultOfLoopbackAuthentication X Handler.Callback OnComplete
    Handler.RedirectUri Handler.ClientId Handler.ClientSecret Request

/-- Route of a router of the HTTP server (what an `FHttpRouteHandle` points to). -/
structure FHttpRouteHandleInternal where
  Path : String
  Verbs : List EHttpServerRequestVerbs
  Handler : FHttpRequestHandler
  deriving DecidableEq, Repr

/-- State of the engine's HTTP server module, as this class uses it. `Routes`
holds the bound routes of all routers, each with the port of its router. -/
structure FHttpServerModule where
  /-- Answer of `FHttpServerModule::IsAvailable()`. -/
  bIsAvailable : Bool
  /-- Whether loading the module `HTTPServer` makes it available. -/
  bLoads : Bool
  Routes : List (Int × FHttpRouteHandleInternal)
  bListenersStarted : Bool
  deriving DecidableEq, Repr

/-- Effect of `FModuleManager::LoadModuleChecked<FHttpServerModule>`. -/
def FHttpServerModule.LoadModuleChecked (HttpServer : FHttpServerModule) :
    FHttpServerModule :=
  { HttpServer with bIsAvailable := HttpServer.bLoads }

/-- Route bound on the router of `Port` at `Path`, if any. -/
def FHttpServerModule.FindRoute (HttpServer : FHttpServerModule) (Port : Int)
    (Path : String) : Option FHttpRouteHandleInternal :=
  (HttpServer.Routes.find? (fun pr => pr.1 == Port && pr.2.Path == Path)).map
    (fun pr => pr.2)

/-- Effect of `IHttpRouter::UnbindRoute` on the router of `Port`: the route at the
path of the handle is removed from that router. -/
def FHttpServerModule.UnbindRoute (HttpServer : FHttpServerModule) (Port : Int)
    (RouteHandle : FHttpRouteHandleInternal) : FHttpServerModule :=
  { HttpServer with
    Routes := HttpServer.Routes.filter
      (fun pr => !(pr.1 == Port && pr.2.Path == RouteHandle.Path)) }

/-- Effect of `IHttpRouter::BindRoute` on the router of `Port`: a router holds one
route per path, so the bind fails with an invalid handle when the path is taken,
and otherwise registers the route and returns its handle. -/
def FHttpServerModule.BindRoute (HttpServer : FHttpServerModule) (Port : Int)
    (Path : String) (Verbs : List EHttpServerRequestVerbs)
    (Handler : FHttpRequestHandler) :
    Option FHttpRouteHandleInternal × FHttpServerModule :=
  match HttpServer.FindRoute Port Path with
  | some _ => (none, HttpServer)
  | none =>
    let Route : FHttpRouteHandleInternal :=
      { Path := Path, Verbs := Verbs, Handler := Handler }
    (some Route, { HttpServer with Routes := HttpServer.Routes ++ [(Port, Route)] })

/-- Effect of `FHttpServerModule::StartAllListeners`. -/
def FHttpServerModule.StartAllListeners (HttpServer : FHttpServerModule) :
    FHttpServerModule :=
  { HttpServer with bListenersStarted := true }

/-- State that `AuthenticateManually` reads and writes: the member
`RouterHandle` of the object and the HTTP server module. -/
structure World where
  RouterHandle : Option FHttpRouteHandleInternal
  HttpServer : FHttpServerModule
  deriving DecidableEq, Repr

/-- Text of `FString::FromInt`. -/
def FromInt (Num : Int) : String := toString Num

/-- Embedding of `FGoogleDesktopOAuth::AuthenticateManually`: the state after
the call and the events of the call. -/
def AuthenticateManually (X : Externals) (W : World) (Callback : Nat)
    (Method : AuthenticationMethod) (Scopes ClientId ClientSecret : String)
    (LoopbackPort : Int) : World × List Event :=
  if Method = AuthenticationMethod.LoopbackIp then
    let RedirectUri :=
      kLoopbackAddressBase ++ FromInt LoopbackPort ++ kLoopbackAddressPath
    let UrlPayloadData : List (String × String) :=
      [(kManualAuthenticationScopeField, Scopes),
       (kManualAuthenticationResponseTypeField,
         kManualAuthenticationResponseTypeValue),
       (kManualAuthenticationRedirectUriField, RedirectUri),
       (kManualAuthenticationClientIdField, ClientId)]
    let UrlPayload := X.BuildUrlEncodedPayload UrlPayloadData
    let Launched := [Event.LaunchURL (kManualAuthenticationUrlBase ++ UrlPayload)]
    let HttpServer :=
      if W.HttpServer.bIsAvailable then W.HttpServer
      else W.HttpServer.LoadModuleChecked
    if HttpServer.bIsAvailable then
      let Handler : FHttpRequestHandler :=
        { Callback := Callback, RedirectUri := RedirectUri,
          ClientId := ClientId, ClientSecret := ClientSecret }
      let Unbound :=
        match W.RouterHandle with
        | some RouteHandle => HttpServer.UnbindRoute LoopbackPort RouteHandle
        | none => HttpServer
      let Bound := Unbound.BindRoute LoopbackPort kLoopbackAddressPath
        [EHttpServerRequestVerbs.VERB_GET, EHttpServerRequestVerbs.VERB_POST]
        Handler
      ({ RouterHandle := Bound.1, HttpServer := Bound.2.StartAllListeners },
        Launched)
    else
      ({ W with HttpServer := HttpServer },
        Launched ++
          [Event.ManualAuthenticationCallback Callback "" 0 ""
            Status.kUnknownErrorCode])
  else
    (W, [Event.ManualAuthenticationCallback Callback "" 0 ""
      Status.kUnknownErrorCode])

/-- Arrival of a request on the loopback server: the router of `Port` runs the
handler of the route bound at the path of the request, when the route accepts
the verb; a request that no route takes runs no code of this class. -/
def World.HandleRequest (X : Externals) (W : World) (Port : Int)
    (Request : FHttpServerRequest) (OnComplete : Nat) : Option (List Event) :=
  match W.HttpServer.FindRoute Port Request.RelativePath with
  | some Route =>
    if Request.Verb ∈ Route.Verbs then Route.Handler.Execute X Request OnComplete
    else some []
  | none => some []

/-! ## Runs of the manual flow -/

/-- How the HTTP module completes an outbound request: the arguments it hands to
the completion delegate, and the clock at that moment. -/
structure FHttpCompletion where
  Now : Int
  Request : FHttpRequest
  Response : Option FHttpResponse
  bWasSuccessful : Bool
  deriving DecidableEq, Repr

/-- Completion of the requests sent in a list of events: the delegate of each
`ProcessRequest` is run once, in the order of the requests. -/
def CompleteRequests (X : Externals) (Completion : FHttpCompletion) :
    List Event → Option (List Event)
  | [] => some []
  | Event.ProcessRequest Request :: Events =>
    match Request.OnProcessRequestComplete.Execute X Completion.Now
        Completion.Request Completion.Response Completion.bWasSuccessful,
      CompleteRequests X Completion Events with
    | some Delivered, some Rest => some (Delivered ++ Rest)
    | _, _ => none
  | _ :: Events => CompleteRequests X Completion Events

/-- A request that arrives on the loopback server, with the completion of the
request that its handler may send (`none`: that request has not completed). -/
structure Redirect where
  Port : Int
  Request : FHttpServerRequest
  OnComplete : Nat
  Completion : Option FHttpCompletion
  deriving DecidableEq, Repr

/-- Events of a redirect: those of the handler of the route that takes it,
then those of the completion of the request the handler sent. -/
def World.Redirect (X : Externals) (W : World) (R : Redirect) :
    Option (List Event) :=
  match W.HandleRequest X R.Port R.Request R.OnComplete with
  | none => none
  | some Handled =>
    match R.Completion with
    | none => some Handled
    | some Completion =>
      match CompleteRequests X Completion Handled with
      | none => none
      | some Completed => some (Handled ++ Completed)

/-- What happens to a client: a call of `AuthenticateManually`, or a redirect
arriving on the loopback server. -/
inductive Action where
  | AuthenticateManually (Callback : Nat) (Method : AuthenticationMethod)
      (Scopes ClientId ClientSecret : String) (LoopbackPort : Int)
  | Redirect (R : Redirect)
  deriving DecidableEq, Repr

/-- One step of a run. The handler of a redirect and the completion delegates
write neither `RouterHandle` nor the routers: the state is the one before. -/
def World.Step (X : Externals) (W : World) : Action → Option (World × List Event)
  | Action.AuthenticateManually Callback Method Scopes ClientId ClientSecret
      LoopbackPort =>
    some (AuthenticateManually X W Callback Method Scopes ClientId ClientSecret
      LoopbackPort)
  | Action.Redirect R =>
    match W.Redirect X R with
    | none => none
    | some Events => some (W, Events)

/-- Run of a sequence of actions: the final state and all the events. -/
def World.Run (X : Externals) : World → List Action → Option (World × List Event)
  | W, [] => some (W, [])
  | W, A :: Actions =>
    match W.Step X A with
    | none => none
    | some (W1, Events1) =>
      match World.Run X W1 Actions with
      | none => none
      | some (W2, Events2) => some (W2, Events1 ++ Events2)

/-- Whether an event is an invocation of the manual-authentication callback
`Callback`. -/
def Event.IsManualAuthenticationCallbackOf (Callback : Nat) : Event → Bool
  | Event.ManualAuthenticationCallback Invoked _ _ _ _ => Invoked == Callback
  | _ => false

/-- Number of invocations of the manual-authentication callback `Callback`. -/
def ManualAuthenticationCallbackCount (Callback : Nat) (Events : List Event) : Nat :=
  Events.countP (Event.IsManualAuthenticationCallbackOf Callback)

/-- State of a client that never authenticated: no handle, no route, the server
module not loaded yet and loadable. -/
def World.initial : World :=
  { RouterHandle := none
    HttpServer :=
      { bIsAvailable := false, bLoads := true, Routes := [],
        bListenersStarted := false } }

/-! ## Sample values used to run the definitions -/

/-- An instance of the external parts: a reader that answers `Data` for the
text `json` and fails on any other text, an encoder that joins `key=value`
pairs with `&`, and a conversion that gives the least `int32` to every number
outside the range of `int32`. -/
def Externals.sample (Data : FJsonObject) : Externals where
  Deserialize := fun Text => if Text = "json" then some Data else none
  BuildUrlEncodedPayload := fun Params =>
    "&".intercalate (Params.map (fun kv => kv.1 ++ "=" ++ kv.2))
  Int32OutOfRange := fun _ => -2147483648

end FGoogleDesktopOAuth

/-!
# Gamepad detector (`GamepadDetector.h`, `GamepadDetector.cpp`)

The detector is a record of its data members; each method is a function on the
record. What the Steam client and the HID manager answer during one call of
`UpdateGamepadType` is an `Environment`. An unsigned machine integer is a `Nat`
below its bound; the `uint64` shift of the key is taken modulo `2 ^ 64`.
-/

namespace GamepadDetection

/-- Kind of gamepad the player is using (`enum class EGamepadType`). -/
inductive EGamepadType where
  | PS4_GAMEPAD
  | PS3_GAMEPAD
  | XBOX_ONE_GAMEPAD
  | XBOX_360_GAMEPAD
  | SWITCH_GAMEPAD
  | UNKNOWN_GAMEPAD
  deriving DecidableEq, Repr

/-- Family of gamepad the player is using (`enum class EGamepadFamily`). -/
inductive EGamepadFamily where
  | PS_FAMILY
  | XBOX_FAMILY
  | SWITCH_FAMILY
  | UNKNOWN_FAMILY
  deriving DecidableEq, Repr

/-- Strategy of the detector (`enum class EDetectionStrategy`). -/
inductive EDetectionStrategy where
  | STEAM_USING_STRATEGY
  | NO_STEAM_STRATEGY
  deriving DecidableEq, Repr

/-- Input types of the Steam client (`ESteamInputType` of the Steamworks SDK). -/
inductive ESteamInputType where
  | k_ESteamInputType_Unknown
  | k_ESteamInputType_SteamController
  | k_ESteamInputType_XBox360Controller
  | k_ESteamInputType_XBoxOneController
  | k_ESteamInputType_GenericGamepad
  | k_ESteamInputType_PS4Controller
  | k_ESteamInputType_AppleMFiController
  | k_ESteamInputType_AndroidController
  | k_ESteamInputType_SwitchJoyConPair
  | k_ESteamInputType_SwitchJoyConSingle
  | k_ESteamInputType_SwitchProController
  | k_ESteamInputType_MobileTouch
  | k_ESteamInputType_PS3Controller
  | k_ESteamInputType_PS5Controller
  | k_ESteamInputType_SteamDeckController
  deriving DecidableEq, Repr

/-- Family that the comment of `EGamepadFamily` in the header documents for each
type (lines 32-38 of `GamepadDetector.h`). -/
def DocumentedFamily : EGamepadType → EGamepadFamily
  | EGamepadType.PS4_GAMEPAD => EGamepadFamily.PS_FAMILY
  | EGamepadType.PS3_GAMEPAD => EGamepadFamily.PS_FAMILY
  | EGamepadType.XBOX_ONE_GAMEPAD => EGamepadFamily.XBOX_FAMILY
  | EGamepadType.XBOX_360_GAMEPAD => EGamepadFamily.XBOX_FAMILY
  | EGamepadType.SWITCH_GAMEPAD => EGamepadFamily.SWITCH_FAMILY
  | EGamepadType.UNKNOWN_GAMEPAD => EGamepadFamily.UNKNOWN_FAMILY

/-- Effect of `TMap::Add`: the value of an existing key is replaced, a new key is
added after the others. -/
def TMapAdd {κ β : Type} [DecidableEq κ] : List (κ × β) → κ → β → List (κ × β)
  | [], Key, Value => [(Key, Value)]
  | (Key0, Value0) :: Map, Key, Value =>
    if Key0 = Key then (Key, Value) :: Map
    else (Key0, Value0) :: TMapAdd Map Key Value

/-- Result of `TMap::Find`: the value of the key, if the key is in the map. -/
def TMapFind {κ β : Type} [DecidableEq κ] : List (κ × β) → κ → Option β
  | [], _ => none
  | (Key0, Value0) :: Map, Key =>
    if Key0 = Key then some Value0 else TMapFind Map Key

/-- Data members of `FGamepadDetector`. `HIDManager` is the pointer: `none` is
the null pointer. -/
structure FGamepadDetector where
  bIsSteamInputInitialized : Bool
  ControllersMap : List (Nat × EGamepadType)
  FamilyMap : List (EGamepadType × EGamepadFamily)
  SteamGamepadTypeToGamepadTypeMap : List (ESteamInputType × EGamepadType)
  GamepadFamily : EGamepadFamily
  GamepadType : EGamepadType
  HIDManager : Option Nat
  DetectionStrategy : EDetectionStrategy
  deriving DecidableEq, Repr

/-- Embedding of `FGamepadDetector::SetGamepadType`. -/
def FGamepadDetector.SetGamepadType (D : FGamepadDetector)
    (NewGamepadType : EGamepadType) : FGamepadDetector :=
  match TMapFind D.FamilyMap NewGamepadType with
  | some NewGamepadFamily =>
    { D with GamepadType := NewGamepadType, GamepadFamily := NewGamepadFamily }
  | none =>
    { D with GamepadType := NewGamepadType,
             GamepadFamily := EGamepadFamily.UNKNOWN_FAMILY }

/-- Embedding of the constructor `FGamepadDetector::FGamepadDetector`. The member
`HIDManager` has no initialiser: its value after the construction is not set by
the code and is the parameter. The type and the family are written by the
final `SetGamepadType`. -/
def FGamepadDetector.Constructor (HIDManager : Option Nat) : FGamepadDetector :=
  let FamilyMap : List (EGamepadType × EGamepadFamily) := []
  let FamilyMap := TMapAdd FamilyMap EGamepadType.PS3_GAMEPAD EGamepadFamily.PS_FAMILY
  let FamilyMap := TMapAdd FamilyMap EGamepadType.PS4_GAMEPAD EGamepadFamily.PS_FAMILY
  let FamilyMap :=
    TMapAdd FamilyMap EGamepadType.XBOX_ONE_GAMEPAD EGamepadFamily.XBOX_FAMILY
  let FamilyMap :=
    TMapAdd FamilyMap EGamepadType.XBOX_360_GAMEPAD EGamepadFamily.XBOX_FAMILY
  let FamilyMap :=
    TMapAdd FamilyMap EGamepadType.SWITCH_GAMEPAD EGamepadFamily.SWITCH_FAMILY
  let FamilyMap :=
    TMapAdd FamilyMap EGamepadType.UNKNOWN_GAMEPAD EGamepadFamily.UNKNOWN_FAMILY
  let SteamMap : List (ESteamInputType × EGamepadType) := []
  let SteamMap := TMapAdd SteamMap
    ESteamInputType.k_ESteamInputType_XBox360Controller
    EGamepadType.XBOX_360_GAMEPAD
  let SteamMap := TMapAdd SteamMap
    ESteamInputType.k_ESteamInputType_XBoxOneController
    EGamepadType.XBOX_ONE_GAMEPAD
  let SteamMap := TMapAdd SteamMap
    ESteamInputType.k_ESteamInputType_PS3Controller EGamepadType.PS3_GAMEPAD
  let SteamMap := TMapAdd SteamMap
    ESteamInputType.k_ESteamInputType_PS4Controller EGamepadType.PS4_GAMEPAD
  let SteamMap := TMapAdd SteamMap
    ESteamInputType.k_ESteamInputType_SwitchJoyConPair EGamepadType.SWITCH_GAMEPAD
  let SteamMap := TMapAdd SteamMap
    ESteamInputType.k_ESteamInputType_SwitchJoyConSingle EGamepadType.SWITCH_GAMEPAD
  let SteamMap := TMapAdd SteamMap
    ESteamInputType.k_ESteamInputType_SwitchProController
    EGamepadType.SWITCH_GAMEPAD
  FGamepadDetector.SetGamepadType
    { bIsSteamInputInitialized := false
      ControllersMap := []
      FamilyMap := FamilyMap
      SteamGamepadTypeToGamepadTypeMap := SteamMap
      GamepadFamily := EGamepadFamily.UNKNOWN_FAMILY
      GamepadType := EGamepadType.UNKNOWN_GAMEPAD
      HIDManager := HIDManager
      DetectionStrategy := EDetectionStrategy.STEAM_USING_STRATEGY }
    EGamepadType.UNKNOWN_GAMEPAD

/-- Key of `ControllersMap` as `AddControllerSupport` and `FindAndSetGamepad`
build it: `Key = 0; Key |= VendorID; Key <<= 32u; Key |= ProductID` on a
`uint64`. -/
def ControllerKey (VendorID ProductID : Nat) : Nat :=
  let Key : Nat := 0
  let Key := Key ||| VendorID
  let Key := (Key <<< 32) % 2 ^ 64
  Key ||| ProductID

/-- Embedding of `FGamepadDetector::AddControllerSupport`. -/
def FGamepadDetector.AddControllerSupport (D : FGamepadDetector)
    (VendorID ProductID : Nat) (Type_ : EGamepadType) : FGamepadDetector :=
  { D with
    ControllersMap := TMapAdd D.ControllersMap (ControllerKey VendorID ProductID)
      Type_ }

/-- Embedding of `FGamepadDetector::FindAndSetGamepad`: the returned value and
the detector after the call. -/
def FGamepadDetector.FindAndSetGamepad (D : FGamepadDetector)
    (VendorID ProductID : Nat) : Bool × FGamepadDetector :=
  match TMapFind D.ControllersMap (ControllerKey VendorID ProductID) with
  | some Type_ => (true, D.SetGamepadType Type_)
  | none => (false, D)

/-- Embedding of `FGamepadDetector::OnDetectionFailed`. -/
def FGamepadDetector.OnDetectionFailed (D : FGamepadDetector)
    (_NumberOfHIDs : Int) : FGamepadDetector :=
  D.SetGamepadType EGamepadType.UNKNOWN_GAMEPAD

/-- A connected device as the HID manager reports it (`FHID`). -/
structure FHID where
  HardwareID : String
  VendorID : Nat
  ProductID : Nat
  deriving DecidableEq, Repr

/-- What the Steam Input interface answers during one update: the result of
`Init()` and the input types of the handles that `GetConnectedControllers`
returns, in the order of the handles. -/
structure ISteamInput where
  Init : Bool
  ConnectedControllers : List ESteamInputType
  deriving DecidableEq, Repr

/-- What the outside answers during one call of `UpdateGamepadType`:
`SteamInput()` (`none` is the null pointer) and `HIDManager->QueryHIDs()`. -/
structure Environment where
  SteamInput : Option ISteamInput
  HIDs : List FHID
  deriving DecidableEq, Repr

/-- Loop of `UpdateGamepadTypeHIDBased` over the devices: the detector after the
first device that `FindAndSetGamepad` sets, or `none` when the loop ends
without a return. -/
def FGamepadDetector.FindFirstHID (D : FGamepadDetector) :
    List FHID → Option FGamepadDetector
  | [] => none
  | HID :: HIDs =>
    let Found := D.FindAndSetGamepad HID.VendorID HID.ProductID
    if Found.1 then some Found.2 else D.FindFirstHID HIDs

/-- Embedding of `FGamepadDetector::UpdateGamepadTypeHIDBased`. -/
def FGamepadDetector.UpdateGamepadTypeHIDBased (D : FGamepadDetector)
    (E : Environment) : FGamepadDetector :=
  match D.HIDManager with
  | some _ =>
    let HIDs := E.HIDs
    match D.FindFirstHID HIDs with
    | some Set => Set
    | none => D.OnDetectionFailed HIDs.length
  | none => D

/-- Body of the loop of `UpdateGamepadTypeSteamBased` for one controller. -/
def FGamepadDetector.SetFromSteamInputType (D : FGamepadDetector)
    (InputType : ESteamInputType) : FGamepadDetector :=
  match TMapFind D.SteamGamepadTypeToGamepadTypeMap InputType with
  | some Type_ => D.SetGamepadType Type_
  | none => D.SetGamepadType EGamepadType.UNKNOWN_GAMEPAD

/-- Embedding of `FGamepadDetector::UpdateGamepadTypeSteamBased`. The loop runs
over all the connected controllers, with no exit. -/
def FGamepadDetector.UpdateGamepadTypeSteamBased (D : FGamepadDetector)
    (E : Environment) : FGamepadDetector :=
  if D.DetectionStrategy = EDetectionStrategy.STEAM_USING_STRATEGY then
    match E.SteamInput with
    | some SteamInput =>
      let D1 :=
        if !D.bIsSteamInputInitialized then
          { D with bIsSteamInputInitialized := SteamInput.Init }
        else D
      if D1.bIsSteamInputInitialized then
        SteamInput.ConnectedControllers.foldl
          FGamepadDetector.SetFromSteamInputType D1
      else D1
    | none => D.UpdateGamepadTypeHIDBased E
  else
    D.UpdateGamepadTypeHIDBased E

/-- Embedding of `FGamepadDetector::UpdateGamepadType`. -/
def FGamepadDetector.UpdateGamepadType (D : FGamepadDetector) (E : Environment) :
    FGamepadDetector :=
  D.UpdateGamepadTypeSteamBased E

/-- Embedding of `FGamepadDetector::SetHIDManager`. -/
def FGamepadDetector.SetHIDManager (D : FGamepadDetector)
    (NewHIDManager : Option Nat) : FGamepadDetector :=
  { D with HIDManager := NewHIDManager }

/-- Embedding of `FGamepadDetector::SetDetectionStrategy`. -/
def FGamepadDetector.SetDetectionStrategy (D : FGamepadDetector)
    (NewDetectionStrategy : EDetectionStrategy) : FGamepadDetector :=
  { D with DetectionStrategy := NewDetectionStrategy }

/-- Embedding of `FGamepadDetector::GetGamepadType`. -/
def FGamepadDetector.GetGamepadType (D : FGamepadDetector) : EGamepadType :=
  D.GamepadType

/-- Embedding of `FGamepadDetector::GetGamepadFamily`. -/
def FGamepadDetector.GetGamepadFamily (D : FGamepadDetector) : EGamepadFamily :=
  D.GamepadFamily

/-- Embedding of `FGamepadDetector::GetNumberOfSupportedControllers`. -/
def FGamepadDetector.GetNumberOfSupportedControllers (D : FGamepadDetector) :
    Int :=
  D.ControllersMap.length

/-- Invariant of the detector: the family map is the one the constructor
builds, and the current family is the documented family of the current type. -/
def FGamepadDetector.Consistent (D : FGamepadDetector) : Prop :=
  D.FamilyMap = (FGamepadDetector.Constructor none).FamilyMap ∧
    D.GamepadFamily = DocumentedFamily D.GamepadType

/-- A call of a public operation that writes the detector. -/
inductive Operation where
  | UpdateGamepadType (E : Environment)
  | SetDetectionStrategy (NewDetectionStrategy : EDetectionStrategy)
  | SetHIDManager (NewHIDManager : Option Nat)
  | AddControllerSupport (VendorID ProductID : Nat) (Type_ : EGamepadType)
  deriving DecidableEq, Repr

/-- Effect of one public operation. -/
def FGamepadDetector.Apply (D : FGamepadDetector) : Operation → FGamepadDetector
  | Operation.UpdateGamepadType E => D.UpdateGamepadType E
  | Operation.SetDetectionStrategy NewDetectionStrategy =>
    D.SetDetectionStrategy NewDetectionStrategy
  | Operation.SetHIDManager NewHIDManager => D.SetHIDManager NewHIDManager
  | Operation.AddControllerSupport VendorID ProductID Type_ =>
    D.AddControllerSupport VendorID ProductID Type_

/-- Effect of a sequence of public operations, in order. -/
def FGamepadDetector.ApplyAll (D : FGamepadDetector) (Operations : List Operation) :
    FGamepadDetector :=
  Operations.foldl FGamepadDetector.Apply D

/-- Type registered for a pair of ids by a sequence of `AddControllerSupport`
calls `(VendorID, ProductID, Type)`: the type of the last call for the pair. -/
def RegisteredType (Registered : List (Nat × Nat × EGamepadType))
    (VendorID ProductID : Nat) : Option EGamepadType :=
  (Registered.reverse.find?
    (fun Entry => Entry.1 == VendorID && Entry.2.1 == ProductID)).map
    (fun Entry => Entry.2.2)

/-- Calls of `AddControllerSupport` in a sequence of public operations, in the
order of the calls: `(VendorID, ProductID, Type)`. -/
def Registrations (Operations : List Operation) :
    List (Nat × Nat × EGamepadType) :=
  Operations.filterMap (fun Op =>
    match Op with
    | Operation.AddControllerSupport VendorID ProductID Type_ =>
      some (VendorID, ProductID, Type_)
    | _ => none)

end GamepadDetection

/-!
# Request loader (`RequestLoader.cpp`)

The macros `VERSION_MAJOR`, `VERSION_MINOR` and `VERSION_INDEX` of `version.h`
and the interfaces `IRequestProvider` and `IRequestDeserializer` are not part
of the sources: they are parameters.
-/

namespace RequestLoader

/-- Version triple (`FVersion`). -/
structure FVersion where
  Major : Int
  Minor : Int
  Index : Int
  deriving DecidableEq, Repr

/-- Values of the macros of `version.h`: the version of the plugin. -/
structure PluginVersion where
  VERSION_MAJOR : Int
  VERSION_MINOR : Int
  VERSION_INDEX : Int
  deriving DecidableEq, Repr

/-- Request extracted by the deserializer (`FExtractionRequest`), kept as what
the deserializer made of the contents. -/
structure FExtractionRequest where
  Payload : String
  deriving DecidableEq, Repr

/-- Deserializer (`IRequestDeserializer`) after `Deserialize(Contents)`: what
`ExtractVersion()` and `ExtractRequest()` answer for the contents; a null
request is `none`. -/
structure IRequestDeserializer where
  ExtractVersion : String → FVersion
  ExtractRequest : String → Option FExtractionRequest

/-- Embedding of `FRequestLoader::CheckVersionsCompatibility`. -/
def CheckVersionsCompatibility (V : PluginVersion)
    (RequiredMinimalVersion : FVersion) : Bool :=
  let bMajorGreater : Bool := decide (V.VERSION_MAJOR > RequiredMinimalVersion.Major)
  let bMajorEqual : Bool := decide (V.VERSION_MAJOR = RequiredMinimalVersion.Major)
  let bMinorGreater : Bool := decide (V.VERSION_MINOR > RequiredMinimalVersion.Minor)
  let bMinorEqual : Bool := decide (V.VERSION_MINOR = RequiredMinimalVersion.Minor)
  let bIndexGreaterOrEqual : Bool :=
    decide (V.VERSION_INDEX ≥ RequiredMinimalVersion.Index)
  bMajorGreater || (bMajorEqual && bMinorGreater)
    || (bMajorEqual && bMinorEqual && bIndexGreaterOrEqual)

/-- Embedding of `FRequestLoader::LoadRequest`; `RetrieveContents` is what the
provider returns, and `none` is the null request. -/
def LoadRequest (V : PluginVersion) (RetrieveContents : String)
    (RequestDeserializer : IRequestDeserializer) : Option FExtractionRequest :=
  let Contents := RetrieveContents
  let RequiredVersion := RequestDeserializer.ExtractVersion Contents
  if !CheckVersionsCompatibility V RequiredVersion then
    none
  else
    RequestDeserializer.ExtractRequest Contents

/-- A version triple in the lexicographic order of its three numbers. -/
def LexOf (Major Minor Index : Int) : Lex (Int × Lex (Int × Int)) :=
  toLex (Major, toLex (Minor, Index))

end RequestLoader

/-!
# Mail delivery (`K1MailSystemFunctionLibrary.h`, `K1MailSystemFunctionLibrary.cpp`)

The backend is outside the sources. Each of its two calls is taken to invoke
its continuation once, with an answer that may depend on the state of the
backend: a call is a function from the state to the next state and the answer,
and the continuation runs on the answer. A run is the list of backend calls and
broadcasts, in order.
-/

namespace K1MailSystem

/-- Result of a flush (`EFlushResult`); the code tests `Success` only. -/
inductive EFlushResult where
  | Success
  | Failed (Code : Nat)
  deriving DecidableEq, Repr

/-- Inventory row added for a mail (`FDBPlayerInventoryData`). -/
structure FDBPlayerInventoryData where
  PlayerId : Int
  InventoryItemDataBytes : List Nat
  Index : Int
  deriving DecidableEq, Repr

/-- Difference sent to the backend (`FLocalSaveGameDiffData`), with the rows of
`Added.PlayerInventoryData`. -/
structure FLocalSaveGameDiffData where
  PlayerId : Int
  AddedPlayerInventoryData : List FDBPlayerInventoryData
  deriving DecidableEq, Repr

/-- Backend (`UK1BackendCommunication`) with a state `σ`: the answer that each
call hands to its continuation. -/
structure UK1BackendCommunication (σ : Type) where
  GetMinNextPlayerInventoryIndex : σ → Int → σ × Int
  SetAllPlayerData : σ → String → String → FLocalSaveGameDiffData → σ × EFlushResult

/-- Calls of the backend and broadcasts of `OnMailRequestResult`. -/
inductive MailEvent where
  | GetMinNextPlayerInventoryIndex (Id : Int)
  | SetAllPlayerData (DiffData : FLocalSaveGameDiffData)
  | Broadcast (PlayedId : Int) (RequestResult : Bool) (Left : Int)
  deriving DecidableEq, Repr

/-- Conversion of an integer to `int32`, the type of the first parameter of the
delegate `FMailRequestResult`. -/
def wrapInt32 (x : Int) : Int := (x + 2 ^ 31) % 2 ^ 32 - 2 ^ 31

/-- Embedding of `UK1MailSystemFunctionLibrary::SendMailToPlayers`, with its two
nested continuations; `Serialized` is `InMailItemDataAsset->ToSerialized()`.
`Ids.Pop()` takes the last element of the array; `Popped` is the array after
it. -/
def SendMailToPlayers {σ : Type} (BackendCommunication : UK1BackendCommunication σ)
    (State : σ) (Ids : List Int) (Serialized : List Nat) : σ × List MailEvent :=
  if h : Ids = [] then
    (State, [])
  else
    let Id := Ids.getLast h
    let Popped := Ids.dropLast
    let Answer1 := BackendCommunication.GetMinNextPlayerInventoryIndex State Id
    let Index := Answer1.2
    let MailInventoryItem : FDBPlayerInventoryData :=
      { PlayerId := Id, InventoryItemDataBytes := Serialized, Index := Index }
    let DiffData : FLocalSaveGameDiffData :=
      { PlayerId := Id, AddedPlayerInventoryData := [MailInventoryItem] }
    let Answer2 := BackendCommunication.SetAllPlayerData Answer1.1 "" "" DiffData
    let Result := Answer2.2
    let Next := SendMailToPlayers BackendCommunication Answer2.1 Popped Serialized
    (Next.1,
      [MailEvent.GetMinNextPlayerInventoryIndex Id,
        MailEvent.SetAllPlayerData DiffData,
        MailEvent.Broadcast (wrapInt32 Id) (decide (Result = EFlushResult.Success))
          Popped.length] ++ Next.2)
termination_by Ids.length
decreasing_by
  have hPos : 0 < Ids.length := List.length_pos.mpr h
  simp only [List.length_dropLast, Popped]
  omega

/-- Ids passed to `GetMinNextPlayerInventoryIndex`, in the order of the calls. -/
def IndexRequests : List MailEvent → List Int
  | [] => []
  | MailEvent.GetMinNextPlayerInventoryIndex Id :: Events => Id :: IndexRequests Events
  | _ :: Events => IndexRequests Events

/-- Player ids of the differences passed to `SetAllPlayerData`, in the order of
the calls. -/
def FlushRequests : List MailEvent → List Int
  | [] => []
  | MailEvent.SetAllPlayerData DiffData :: Events =>
    DiffData.PlayerId :: FlushRequests Events
  | _ :: Events => FlushRequests Events

/-- Values of `Left` of the broadcasts, in the order of the broadcasts. -/
def BroadcastLefts : List MailEvent → List Int
  | [] => []
  | MailEvent.Broadcast _ _ Left :: Events => Left :: BroadcastLefts Events
  | _ :: Events => BroadcastLefts Events

/-- A backend whose state is the number of calls made so far: the free index is
that number, and the flush of player `FailingId` fails. -/
def UK1BackendCommunication.sample (FailingId : Int) : UK1BackendCommunication Nat where
  GetMinNextPlayerInventoryIndex := fun Calls _ => (Calls + 1, Calls)
  SetAllPlayerData := fun Calls _ _ DiffData =>
    (Calls + 1,
      if DiffData.PlayerId = FailingId then EFlushResult.Failed 1
      else EFlushResult.Success)

end K1MailSystem

namespace FGoogleDesktopOAuth

/-! ## Shared lemmas -/

theorem wrapInt64_of_range (x : Int) (hlo : -2 ^ 63 ≤ x) (hhi : x < 2 ^ 63) :
    wrapInt64 x = x := by
  unfold wrapInt64
  rw [Int.emod_eq_of_lt (by omega) (by omega)]
  omega

theorem FStringEquals_self (S : String) : FStringEquals S S = true := by
  simp [FStringEquals]

theorem CastToInt32_of_range (OutOfRange : Int → Int) (Number : Int)
    (hlo : -2 ^ 31 ≤ Number) (hhi : Number < 2 ^ 31) :
    CastToInt32 OutOfRange Number = Number := by
  unfold CastToInt32
  rw [if_pos ⟨hlo, hhi⟩]

theorem HandleResultOfRequest_eq_Classify {α : Type} (X : Externals)
    (Request : FHttpRequest) (Response : Option FHttpResponse) (b : Bool)
    (S : FJsonObject → Status → α) (F : Status → α) :
    HandleResultOfRequest X Request Response b S F =
      (Classify X Request Response b).map (fun Outcome =>
        match Outcome with
        | RequestOutcome.Success Data Code => S Data Code
        | RequestOutcome.Failure Code => F Code) := by
  unfold Classify HandleResultOfRequest
  cases Response with
  | none => by_cases h : Request.Status = EHttpRequestStatus.Failed_ConnectionError <;> simp [h]
  | some Response =>
    by_cases h : Request.Status = EHttpRequestStatus.Failed_ConnectionError
    · simp [h]
    · simp only [ne_eq, h, not_false_eq_true, if_true]
      split_ifs <;> rfl

theorem takeWhile_append_stop {α : Type} (p : α → Bool) (xs ys : List α) (y : α)
    (hxs : ∀ x ∈ xs, p x = true) (hy : p y = false) :
    (xs ++ y :: ys).takeWhile p = xs := by
  induction xs with
  | nil => simp [List.takeWhile, hy]
  | cons x xs ih =>
    have hx : p x = true := hxs x (by simp)
    simp only [List.cons_append, List.takeWhile_cons, hx, if_true]
    rw [ih (fun z hz => hxs z (by simp [hz]))]

theorem ExtractMimeFromContentType_parameters (Parameters : String) :
    ExtractMimeFromContentType ("application/json;" ++ Parameters) =
      "application/json" := by
  unfold ExtractMimeFromContentType
  have h : ("application/json;" ++ Parameters).data =
      "application/json".data ++ ';' :: Parameters.data := by
    simp [String.data_append]
  rw [h, takeWhile_append_stop _ _ _ _ (by decide) (by decide)]

theorem Answer_failed (OnComplete : Nat) :
    Answer OnComplete "Authentication failed"
        "Authentication failed. Return to the VO Importer, please." =
      [Event.OnComplete OnComplete
        "<!doctype><html><head><title>Authentication failed</title></head><body>Authentication failed. Return to the VO Importer, please. You can now close the tab. </body></html>"] := by
  unfold Answer
  congr 2

theorem FindRoute_UnbindRoute (HttpServer : FHttpServerModule) (Port : Int)
    (RouteHandle : FHttpRouteHandleInternal) :
    (HttpServer.UnbindRoute Port RouteHandle).FindRoute Port RouteHandle.Path =
      none := by
  unfold FHttpServerModule.FindRoute FHttpServerModule.UnbindRoute
  simp only [Option.map_eq_none', List.find?_eq_none, List.mem_filter]
  intro pr hpr
  have h := hpr.2
  simp only [Bool.not_eq_true', Bool.and_eq_false_iff, beq_eq_false_iff_ne, ne_eq,
    Bool.not_eq_eq_eq_not, Bool.not_true] at h
  simp only [Bool.and_eq_true, beq_iff_eq, not_and]
  intro hPort
  rcases h with h | h
  · exact absurd hPort h
  · exact h

theorem FindRoute_BindRoute (HttpServer : FHttpServerModule) (Port : Int)
    (Path : String) (Verbs : List EHttpServerRequestVerbs)
    (Handler : FHttpRequestHandler)
    (hFree : HttpServer.FindRoute Port Path = none) :
    (HttpServer.BindRoute Port Path Verbs Handler).1 =
        some { Path := Path, Verbs := Verbs, Handler := Handler } ∧
      (HttpServer.BindRoute Port Path Verbs Handler).2.FindRoute Port Path =
        some { Path := Path, Verbs := Verbs, Handler := Handler } := by
  unfold FHttpServerModule.BindRoute
  rw [hFree]
  refine ⟨rfl, ?_⟩
  unfold FHttpServerModule.FindRoute at hFree ⊢
  simp only [Option.map_eq_none'] at hFree
  simp [List.find?_append, hFree]

theorem AuthenticateManually_binds (X : Externals) (W : World) (Callback : Nat)
    (Scopes ClientId ClientSecret : String) (P : Int)
    (hAvail : W.HttpServer.bIsAvailable = true ∨ W.HttpServer.bLoads = true)
    (hOwn : ∀ h, W.RouterHandle = some h → h.Path = kLoopbackAddressPath)
    (hFree : W.RouterHandle = none →
      W.HttpServer.FindRoute P kLoopbackAddressPath = none) :
    (AuthenticateManually X W Callback AuthenticationMethod.LoopbackIp Scopes
        ClientId ClientSecret P).2 =
      [Event.LaunchURL (kManualAuthenticationUrlBase ++
        X.BuildUrlEncodedPayload
          [(kManualAuthenticationScopeField, Scopes),
           (kManualAuthenticationResponseTypeField,
             kManualAuthenticationResponseTypeValue),
           (kManualAuthenticationRedirectUriField,
             kLoopbackAddressBase ++ FromInt P ++ kLoopbackAddressPath),
           (kManualAuthenticationClientIdField, ClientId)])] ∧
    (AuthenticateManually X W Callback AuthenticationMethod.LoopbackIp Scopes
        ClientId ClientSecret P).1.HttpServer.FindRoute P kLoopbackAddressPath =
      some
        { Path := kLoopbackAddressPath
          Verbs := [EHttpServerRequestVerbs.VERB_GET,
            EHttpServerRequestVerbs.VERB_POST]
          Handler :=
            { Callback := Callback
              RedirectUri := kLoopbackAddressBase ++ FromInt P ++ kLoopbackAddressPath
              ClientId := ClientId
              ClientSecret := ClientSecret } } := by
  -- the module is available once the load has been tried
  have hServer : (if W.HttpServer.bIsAvailable then W.HttpServer
      else W.HttpServer.LoadModuleChecked).bIsAvailable = true := by
    by_cases hA : W.HttpServer.bIsAvailable = true
    · simp [hA]
    · rcases hAvail with h | h
      · exact absurd h hA
      · simp [hA, FHttpServerModule.LoadModuleChecked, h]
  -- the loopback path is free on the router of `P` when the route is bound
  have hUnbound : (match W.RouterHandle with
      | some RouteHandle =>
        (if W.HttpServer.bIsAvailable then W.HttpServer
          else W.HttpServer.LoadModuleChecked).UnbindRoute P RouteHandle
      | none => (if W.HttpServer.bIsAvailable then W.HttpServer
          else W.HttpServer.LoadModuleChecked)).FindRoute P kLoopbackAddressPath =
        none := by
    cases hH : W.RouterHandle with
    | none =>
      have h := hFree hH
      by_cases hA : W.HttpServer.bIsAvailable = true
      · simpa [hA] using h
      · simpa [hA, FHttpServerModule.LoadModuleChecked,
          FHttpServerModule.FindRoute] using h
    | some RouteHandle =>
      have h := hOwn RouteHandle hH
      have hU := FindRoute_UnbindRoute (if W.HttpServer.bIsAvailable then W.HttpServer
          else W.HttpServer.LoadModuleChecked) P RouteHandle
      rw [h] at hU
      simpa using hU
  have hBind := FindRoute_BindRoute _ P kLoopbackAddressPath
    [EHttpServerRequestVerbs.VERB_GET, EHttpServerRequestVerbs.VERB_POST]
    { Callback := Callback,
      RedirectUri := kLoopbackAddressBase ++ FromInt P ++ kLoopbackAddressPath,
      ClientId := ClientId, ClientSecret := ClientSecret } hUnbound
  constructor
  · unfold AuthenticateManually
    simp only [if_true, hServer]
  · unfold AuthenticateManually
    simp only [if_true, hServer]
    exact hBind.2

/-! ## Token refresh: the result delivered to the caller -/

/-- C1, as stated, fails: a `200` response `application/json` with
`access_token = "A"` and `expires_in = 3000000000` at time `1700000000` is not
delivered as `("A", 1700000000 + 3000000000, kSuccessCode)`: the field is read
as an `int32`, and `3000000000` is not one. -/
theorem RefreshAuthToken_success_counterexample :
    RefreshAuthToken.OnProcessRequestComplete
        (Externals.sample ⟨[("access_token", FJsonValue.String "A"),
          ("expires_in", FJsonValue.Number 3000000000)]⟩)
        1700000000 7 ⟨EHttpRequestStatus.Succeeded⟩
        (some ⟨200, "application/json", "json"⟩) true ≠
      some [Event.RefreshCallback 7 "A" (1700000000 + 3000000000)
        Status.kSuccessCode] := by
  decide

/-- C1, amended: refresh, success path. For every token `A`, every `E` in the
range of `int32` and every time `Now` such that `Now + E` is in the range of
`int64`, when the request status is not `Failed_ConnectionError`, the MIME type
of the response is `application/json`, its code is in `[200,300)` and its
document has `access_token = A` and `expires_in = E`, the callback is invoked
exactly once, with `(A, Now + E, kSuccessCode)`. -/
theorem RefreshAuthToken_success (X : Externals) (Now : Int) (Callback : Nat)
    (Request : FHttpRequest) (Response : FHttpResponse) (bWasSuccessful : Bool)
    (Data : FJsonObject) (A : String) (E : Int)
    (hConn : Request.Status ≠ EHttpRequestStatus.Failed_ConnectionError)
    (hMime : ExtractMimeFromContentType Response.ContentType = "application/json")
    (hCode : 200 ≤ Response.ResponseCode ∧ Response.ResponseCode < 300)
    (hDoc : X.Deserialize Response.ContentAsString = some Data)
    (hA : TMapFind Data.Values "access_token" = some (FJsonValue.String A))
    (hE : TMapFind Data.Values "expires_in" = some (FJsonValue.Number E))
    (hInt32 : -2 ^ 31 ≤ E ∧ E < 2 ^ 31)
    (hInt64 : -2 ^ 63 ≤ Now + E ∧ Now + E < 2 ^ 63) :
    RefreshAuthToken.OnProcessRequestComplete X Now Callback Request
        (some Response) bWasSuccessful =
      some [Event.RefreshCallback Callback A (Now + E) Status.kSuccessCode] := by
  simp [RefreshAuthToken.OnProcessRequestComplete, HandleResultOfRequest, hConn,
    hMime, kJsonContentType, hCode, hDoc, FJsonObject.TryGetStringField,
    FJsonObject.GetIntegerField, kGoogleRefreshTokenResponseAccessTokenField,
    kGoogleRefreshTokenResponseExpiresInField, hA, hE, FStringEquals_self,
    CastToInt32_of_range _ E hInt32.1 hInt32.2,
    wrapInt64_of_range (Now + E) hInt64.1 hInt64.2]

/-- Witness of C1 amended: a `200` response `application/json` with
`access_token = "A"` and `expires_in = 3600` at time `1700000000`. -/
theorem RefreshAuthToken_success_witness :
    RefreshAuthToken.OnProcessRequestComplete
        (Externals.sample ⟨[("access_token", FJsonValue.String "A"),
          ("expires_in", FJsonValue.Number 3600)]⟩)
        1700000000 7 ⟨EHttpRequestStatus.Succeeded⟩
        (some ⟨200, "application/json", "json"⟩) true =
      some [Event.RefreshCallback 7 "A" (1700000000 + 3600)
        Status.kSuccessCode] :=
  RefreshAuthToken_success
    (Externals.sample ⟨[("access_token", FJsonValue.String "A"),
      ("expires_in", FJsonValue.Number 3600)]⟩)
    1700000000 7 ⟨EHttpRequestStatus.Succeeded⟩
    ⟨200, "application/json", "json"⟩ true
    ⟨[("access_token", FJsonValue.String "A"),
      ("expires_in", FJsonValue.Number 3600)]⟩ "A" 3600
    (by decide) (by decide) (by decide) (by decide) (by decide) (by decide)
    (by decide) (by decide)

/-- C2, the code at the failing input: a `200` response `application/json`
whose document has `access_token = "A"` and no `expires_in` field is delivered
as `kSuccessCode` with `ExpiresOn` equal to the time of the completion, not as
`kInvalidResponseFormatCode`. -/
theorem RefreshAuthToken_missing_expires_in :
    TMapFind [("access_token", FJsonValue.String "A")] "expires_in" = none ∧
    RefreshAuthToken.OnProcessRequestComplete
        (Externals.sample ⟨[("access_token", FJsonValue.String "A")]⟩)
        1700000000 7 ⟨EHttpRequestStatus.Succeeded⟩
        (some ⟨200, "application/json", "json"⟩) true =
      some [Event.RefreshCallback 7 "A" 1700000000 Status.kSuccessCode] := by
  decide

/-- C3: refresh, failure propagation. Whenever `HandleResultOfRequest`
classifies the response as a failure of kind `K`, the callback is invoked
exactly once, with `("", 0, K)`; and a `400` response `application/json` whose
document is `error = "invalid_grant"`, `error_description = "x"` is delivered
as `kInvalidGrantErrorCode`. -/
theorem RefreshAuthToken_failure (X : Externals) (Now : Int) (Callback : Nat)
    (Request : FHttpRequest) (Response : Option FHttpResponse)
    (bWasSuccessful : Bool) :
    (∀ K : Status,
      Classify X Request Response bWasSuccessful = some (RequestOutcome.Failure K) →
      RefreshAuthToken.OnProcessRequestComplete X Now Callback Request Response
          bWasSuccessful =
        some [Event.RefreshCallback Callback "" 0 K]) ∧
    (∀ R : FHttpResponse, Response = some R →
      Request.Status ≠ EHttpRequestStatus.Failed_ConnectionError →
      ExtractMimeFromContentType R.ContentType = "application/json" →
      R.ResponseCode = 400 →
      X.Deserialize R.ContentAsString =
        some ⟨[("error", FJsonValue.String "invalid_grant"),
          ("error_description", FJsonValue.String "x")]⟩ →
      RefreshAuthToken.OnProcessRequestComplete X Now Callback Request Response
          bWasSuccessful =
        some [Event.RefreshCallback Callback "" 0 Status.kInvalidGrantErrorCode]) := by
  constructor
  · intro K hK
    unfold RefreshAuthToken.OnProcessRequestComplete
    rw [HandleResultOfRequest_eq_Classify, hK]
    rfl
  · intro R hR hConn hMime hCode hDoc
    subst hR
    simp [RefreshAuthToken.OnProcessRequestComplete, HandleResultOfRequest, hConn,
      hMime, kJsonContentType, hCode, hDoc, FJsonObject.TryGetStringField,
      kGoogleRefreshTokenResponseErrorCodeField, kInvalidGrantErrorCode, TMapFind,
      FStringEquals_self]

/-- Witness of C3: the `400` response with `error = "invalid_grant"`. -/
theorem RefreshAuthToken_failure_witness :
    Classify
        (Externals.sample ⟨[("error", FJsonValue.String "invalid_grant"),
          ("error_description", FJsonValue.String "x")]⟩)
        ⟨EHttpRequestStatus.Succeeded⟩ (some ⟨400, "application/json", "json"⟩)
        true = some (RequestOutcome.Failure Status.kInvalidGrantErrorCode) ∧
    RefreshAuthToken.OnProcessRequestComplete
        (Externals.sample ⟨[("error", FJsonValue.String "invalid_grant"),
          ("error_description", FJsonValue.String "x")]⟩)
        1700000000 7 ⟨EHttpRequestStatus.Succeeded⟩
        (some ⟨400, "application/json", "json"⟩) true =
      some [Event.RefreshCallback 7 "" 0 Status.kInvalidGrantErrorCode] ∧
    RefreshAuthToken.OnProcessRequestComplete
        (Externals.sample ⟨[("error", FJsonValue.String "invalid_grant"),
          ("error_description", FJsonValue.String "x")]⟩)
        1700000001 8 ⟨EHttpRequestStatus.Succeeded⟩
        (some ⟨400, "application/json; charset=utf-8", "json"⟩) false =
      some [Event.RefreshCallback 8 "" 0 Status.kInvalidGrantErrorCode] :=
  ⟨by decide,
    (RefreshAuthToken_failure
      (Externals.sample ⟨[("error", FJsonValue.String "invalid_grant"),
        ("error_description", FJsonValue.String "x")]⟩)
      1700000000 7 ⟨EHttpRequestStatus.Succeeded⟩
      (some ⟨400, "application/json", "json"⟩) true).1
      Status.kInvalidGrantErrorCode (by decide),
    (RefreshAuthToken_failure
      (Externals.sample ⟨[("error", FJsonValue.String "invalid_grant"),
        ("error_description", FJsonValue.String "x")]⟩)
      1700000001 8 ⟨EHttpRequestStatus.Succeeded⟩
      (some ⟨400, "application/json; charset=utf-8", "json"⟩) false).2
      ⟨400, "application/json; charset=utf-8", "json"⟩ rfl
      (by decide) (by decide) (by decide) (by decide)⟩

/-! ## Classification -/

/-- C4, as stated, fails: with `bWasSuccessful = false` and the request status
`Failed`, a `200` response `application/json` is classified as a success, and
an absent response is dereferenced; neither is reported as
`kConnectionErrorCode`. -/
theorem HandleResultOfRequest_transport_failure_counterexample :
    Classify (Externals.sample ⟨[]⟩) ⟨EHttpRequestStatus.Failed⟩
        (some ⟨200, "application/json", "json"⟩) false =
      some (RequestOutcome.Success ⟨[]⟩ Status.kSuccessCode) ∧
    Classify (Externals.sample ⟨[]⟩) ⟨EHttpRequestStatus.Failed⟩ none false =
      none := by
  decide

/-- C4, amended: for every completion whose request status is
`Failed_ConnectionError`, whatever `bWasSuccessful`, the response (absent or
present), its code, content type and body, `HandleResultOfRequest` invokes the
failure continuation with `kConnectionErrorCode` and does not read the
response. -/
theorem HandleResultOfRequest_connection_error {α : Type} (X : Externals)
    (Request : FHttpRequest) (Response : Option FHttpResponse)
    (bWasSuccessful : Bool) (S : FJsonObject → Status → α) (F : Status → α)
    (hConn : Request.Status = EHttpRequestStatus.Failed_ConnectionError) :
    HandleResultOfRequest X Request Response bWasSuccessful S F =
      some (F Status.kConnectionErrorCode) := by
  simp [HandleResultOfRequest, hConn]

/-- Witness of C4 amended: a connection error with no response object. -/
theorem HandleResultOfRequest_connection_error_witness :
    HandleResultOfRequest (Externals.sample ⟨[]⟩)
        ⟨EHttpRequestStatus.Failed_ConnectionError⟩ none false
        RequestOutcome.Success RequestOutcome.Failure =
      some (RequestOutcome.Failure Status.kConnectionErrorCode) :=
  HandleResultOfRequest_connection_error (Externals.sample ⟨[]⟩)
    ⟨EHttpRequestStatus.Failed_ConnectionError⟩ none false
    RequestOutcome.Success RequestOutcome.Failure rfl

/-- C5, as stated, fails: a `400` response `application/json` whose document
has `error = "INVALID_GRANT"`, a string that is not `invalid_grant`, is
reported as `kInvalidGrantErrorCode`, not as `kUnknownErrorCode`. -/
theorem HandleResultOfRequest_provider_error_counterexample :
    TMapFind [("error", FJsonValue.String "INVALID_GRANT")] "error" ≠
      some (FJsonValue.String "invalid_grant") ∧
    Classify (Externals.sample ⟨[("error", FJsonValue.String "INVALID_GRANT")]⟩)
        ⟨EHttpRequestStatus.Succeeded⟩ (some ⟨400, "application/json", "json"⟩)
        true =
      some (RequestOutcome.Failure Status.kInvalidGrantErrorCode) := by
  decide

/-- C5, amended: provider errors. For every response read when the request
status is not `Failed_ConnectionError`, whose MIME type is `application/json`
up to the case of the letters and whose code is outside `[200,300)`, the failure
continuation is invoked; the kind is `kInvalidGrantErrorCode` when the field
`error` of the document is a string equal to `invalid_grant` up to the case of
the letters, and `kUnknownErrorCode` in every other case: field missing, not a
string, another value, or a body that the reader rejects. -/
theorem HandleResultOfRequest_provider_error {α : Type} (X : Externals)
    (Request : FHttpRequest) (Response : FHttpResponse) (bWasSuccessful : Bool)
    (S : FJsonObject → Status → α) (F : Status → α)
    (hConn : Request.Status ≠ EHttpRequestStatus.Failed_ConnectionError)
    (hMime : FStringEquals (ExtractMimeFromContentType Response.ContentType)
      "application/json" = true)
    (hCode : ¬ (200 ≤ Response.ResponseCode ∧ Response.ResponseCode < 300)) :
    (∀ Value : String,
      TMapFind ((X.Deserialize Response.ContentAsString).getD ⟨[]⟩).Values "error" =
        some (FJsonValue.String Value) →
      FStringEquals Value "invalid_grant" = true →
      HandleResultOfRequest X Request (some Response) bWasSuccessful S F =
        some (F Status.kInvalidGrantErrorCode)) ∧
    ((∀ Value : String,
        TMapFind ((X.Deserialize Response.ContentAsString).getD ⟨[]⟩).Values "error" =
          some (FJsonValue.String Value) →
        FStringEquals Value "invalid_grant" = false) →
      HandleResultOfRequest X Request (some Response) bWasSuccessful S F =
        some (F Status.kUnknownErrorCode)) ∧
    (X.Deserialize Response.ContentAsString = none →
      HandleResultOfRequest X Request (some Response) bWasSuccessful S F =
        some (F Status.kUnknownErrorCode)) := by
  have hCode2 : ¬ (Response.ResponseCode ≥ 200 ∧ Response.ResponseCode < 300) := hCode
  have hMime2 : FStringEquals (ExtractMimeFromContentType Response.ContentType)
      kJsonContentType = true := hMime
  have hEmpty : FStringEquals "" "invalid_grant" = false := by decide
  refine ⟨?_, ?_, ?_⟩
  · intro Value h hValue
    simp [HandleResultOfRequest, hConn, hMime2, hCode2,
      FJsonObject.TryGetStringField, FJsonObject.MakeShared,
      kGoogleRefreshTokenResponseErrorCodeField, kInvalidGrantErrorCode, h, hValue]
  · intro h
    have hne : FStringEquals
        ((((X.Deserialize Response.ContentAsString).getD
          FJsonObject.MakeShared).TryGetStringField
            kGoogleRefreshTokenResponseErrorCodeField).getD "")
        kInvalidGrantErrorCode = false := by
      unfold FJsonObject.TryGetStringField FJsonObject.MakeShared
        kGoogleRefreshTokenResponseErrorCodeField kInvalidGrantErrorCode
      generalize TMapFind ((X.Deserialize Response.ContentAsString).getD ⟨[]⟩).Values
        "error" = Field at h ⊢
      cases Field with
      | none => exact hEmpty
      | some Value =>
        cases Value with
        | String Value => exact h Value rfl
        | Null => exact hEmpty
        | Boolean Value => exact hEmpty
        | Number Value => exact hEmpty
        | Array => exact hEmpty
        | Object => exact hEmpty
    simp [HandleResultOfRequest, hConn, hMime2, hCode2, hne]
  · intro h
    simp [HandleResultOfRequest, hConn, hMime2, hCode2, h,
      FJsonObject.TryGetStringField, FJsonObject.MakeShared, TMapFind,
      kInvalidGrantErrorCode, hEmpty]

/-- Witness of C5 amended: a `400` response with `error = "Invalid_Grant"`, a
`500` response with `error = "server_error"`, and a `503` response whose body
the reader rejects. -/
theorem HandleResultOfRequest_provider_error_witness :
    HandleResultOfRequest
        (Externals.sample ⟨[("error", FJsonValue.String "Invalid_Grant")]⟩)
        ⟨EHttpRequestStatus.Succeeded⟩ (some ⟨400, "application/json", "json"⟩)
        true RequestOutcome.Success RequestOutcome.Failure =
      some (RequestOutcome.Failure Status.kInvalidGrantErrorCode) ∧
    HandleResultOfRequest
        (Externals.sample ⟨[("error", FJsonValue.String "server_error")]⟩)
        ⟨EHttpRequestStatus.Succeeded⟩ (some ⟨500, "application/json", "json"⟩)
        true RequestOutcome.Success RequestOutcome.Failure =
      some (RequestOutcome.Failure Status.kUnknownErrorCode) ∧
    HandleResultOfRequest
        (Externals.sample ⟨[("error", FJsonValue.String "invalid_grant")]⟩)
        ⟨EHttpRequestStatus.Succeeded⟩ (some ⟨503, "application/json", ""⟩)
        true RequestOutcome.Success RequestOutcome.Failure =
      some (RequestOutcome.Failure Status.kUnknownErrorCode) :=
  ⟨(HandleResultOfRequest_provider_error
      (Externals.sample ⟨[("error", FJsonValue.String "Invalid_Grant")]⟩)
      ⟨EHttpRequestStatus.Succeeded⟩ ⟨400, "application/json", "json"⟩ true
      RequestOutcome.Success RequestOutcome.Failure
      (by decide) (by decide) (by decide)).1 "Invalid_Grant" (by decide)
      (by decide),
    (HandleResultOfRequest_provider_error
      (Externals.sample ⟨[("error", FJsonValue.String "server_error")]⟩)
      ⟨EHttpRequestStatus.Succeeded⟩ ⟨500, "application/json", "json"⟩ true
      RequestOutcome.Success RequestOutcome.Failure
      (by decide) (by decide) (by decide)).2.1
      (by
        intro Value h
        have h0 : TMapFind (((Externals.sample
            ⟨[("error", FJsonValue.String "server_error")]⟩).Deserialize
              "json").getD ⟨[]⟩).Values "error" =
            some (FJsonValue.String "server_error") := by decide
        rw [h0] at h
        cases h
        decide),
    (HandleResultOfRequest_provider_error
      (Externals.sample ⟨[("error", FJsonValue.String "invalid_grant")]⟩)
      ⟨EHttpRequestStatus.Succeeded⟩ ⟨503, "application/json", ""⟩ true
      RequestOutcome.Success RequestOutcome.Failure
      (by decide) (by decide) (by decide)).2.2 (by decide)⟩

/-- C6, as stated, fails: a `200` response whose content type is
`Application/JSON`, a MIME type that is not the text `application/json`, is
classified as a success, not as `kUnsupportedResponseContentTypeCode`. -/
theorem HandleResultOfRequest_content_type_counterexample :
    ExtractMimeFromContentType "Application/JSON" ≠ "application/json" ∧
    Classify (Externals.sample ⟨[]⟩) ⟨EHttpRequestStatus.Succeeded⟩
        (some ⟨200, "Application/JSON", "json"⟩) true =
      some (RequestOutcome.Success ⟨[]⟩ Status.kSuccessCode) := by
  decide

/-- C6, amended: content type. For every response read when the request status
is not `Failed_ConnectionError`, whose MIME type (the content type without its
parameters) differs from `application/json` by more than the case of the
letters, the failure continuation is invoked with
`kUnsupportedResponseContentTypeCode`, whatever the code and the body; and the
MIME type of `application/json; charset=...` is `application/json`, so such a
response is not reported as unsupported. -/
theorem HandleResultOfRequest_content_type {α : Type} (X : Externals)
    (Request : FHttpRequest) (Response : FHttpResponse) (bWasSuccessful : Bool)
    (S : FJsonObject → Status → α) (F : Status → α)
    (hConn : Request.Status ≠ EHttpRequestStatus.Failed_ConnectionError) :
    (FStringEquals (ExtractMimeFromContentType Response.ContentType)
        "application/json" = false →
      HandleResultOfRequest X Request (some Response) bWasSuccessful S F =
        some (F Status.kUnsupportedResponseContentTypeCode)) ∧
    (∀ Charset : String,
      ExtractMimeFromContentType ("application/json; charset=" ++ Charset) =
        "application/json") ∧
    (∀ Charset : String,
      Response.ContentType = "application/json; charset=" ++ Charset →
      Classify X Request (some Response) bWasSuccessful ≠
        some (RequestOutcome.Failure Status.kUnsupportedResponseContentTypeCode)) := by
  have hParams : ∀ Charset : String,
      ExtractMimeFromContentType ("application/json; charset=" ++ Charset) =
        "application/json" := by
    intro Charset
    have h := ExtractMimeFromContentType_parameters (" charset=" ++ Charset)
    rw [← String.append_assoc] at h
    exact h
  refine ⟨?_, hParams, ?_⟩
  · intro hMime
    have hMime2 : FStringEquals (ExtractMimeFromContentType Response.ContentType)
        kJsonContentType = false := hMime
    simp [HandleResultOfRequest, hConn, hMime2]
  · intro Charset hCT
    have hMime := hParams Charset
    rw [← hCT] at hMime
    unfold Classify HandleResultOfRequest
    simp only [ne_eq, hConn, not_false_eq_true, if_true, hMime, kJsonContentType,
      FStringEquals_self]
    split_ifs <;> simp

/-- Witness of C6 amended: a `200` response `text/html` is unsupported, and a
response `application/json; charset=utf-8` is not. -/
theorem HandleResultOfRequest_content_type_witness :
    HandleResultOfRequest (Externals.sample ⟨[]⟩) ⟨EHttpRequestStatus.Succeeded⟩
        (some ⟨200, "text/html", "json"⟩) true
        RequestOutcome.Success RequestOutcome.Failure =
      some (RequestOutcome.Failure Status.kUnsupportedResponseContentTypeCode) ∧
    Classify (Externals.sample ⟨[]⟩) ⟨EHttpRequestStatus.Succeeded⟩
        (some ⟨200, "application/json; charset=utf-8", "json"⟩) true ≠
      some (RequestOutcome.Failure Status.kUnsupportedResponseContentTypeCode) :=
  ⟨(HandleResultOfRequest_content_type (Externals.sample ⟨[]⟩)
      ⟨EHttpRequestStatus.Succeeded⟩ ⟨200, "text/html", "json"⟩ true
      RequestOutcome.Success RequestOutcome.Failure (by decide)).1 (by decide),
    (HandleResultOfRequest_content_type (Externals.sample ⟨[]⟩)
      ⟨EHttpRequestStatus.Succeeded⟩
      ⟨200, "application/json; charset=utf-8", "json"⟩ true
      RequestOutcome.Success RequestOutcome.Failure (by decide)).2.2
      "utf-8" (by decide)⟩

/-- C7: success. For every response read after a connection that did not fail,
with MIME type `application/json` and `200 <= code < 300`, the success
continuation is invoked with the parsed document and `kSuccessCode`; when the
reader rejects the body the outcome is still a success, with the empty
document. -/
theorem HandleResultOfRequest_success {α : Type} (X : Externals)
    (Request : FHttpRequest) (Response : FHttpResponse) (bWasSuccessful : Bool)
    (S : FJsonObject → Status → α) (F : Status → α)
    (hConn : Request.Status ≠ EHttpRequestStatus.Failed_ConnectionError)
    (hMime : ExtractMimeFromContentType Response.ContentType = "application/json")
    (hCode : 200 ≤ Response.ResponseCode ∧ Response.ResponseCode < 300) :
    (∀ Data : FJsonObject, X.Deserialize Response.ContentAsString = some Data →
      HandleResultOfRequest X Request (some Response) bWasSuccessful S F =
        some (S Data Status.kSuccessCode)) ∧
    (X.Deserialize Response.ContentAsString = none →
      HandleResultOfRequest X Request (some Response) bWasSuccessful S F =
        some (S ⟨[]⟩ Status.kSuccessCode)) := by
  constructor
  · intro Data hDoc
    simp [HandleResultOfRequest, hConn, hMime, kJsonContentType, hCode, hDoc,
      FStringEquals_self]
  · intro hDoc
    simp [HandleResultOfRequest, hConn, hMime, kJsonContentType, hCode, hDoc,
      FJsonObject.MakeShared, FStringEquals_self]

/-- Witness of C7: a `201` response with a document, and a `200` response with
an empty body. -/
theorem HandleResultOfRequest_success_witness :
    HandleResultOfRequest
        (Externals.sample ⟨[("sub", FJsonValue.String "user")]⟩)
        ⟨EHttpRequestStatus.Succeeded⟩ (some ⟨201, "application/json", "json"⟩)
        true RequestOutcome.Success RequestOutcome.Failure =
      some (RequestOutcome.Success ⟨[("sub", FJsonValue.String "user")]⟩
        Status.kSuccessCode) ∧
    HandleResultOfRequest
        (Externals.sample ⟨[("sub", FJsonValue.String "user")]⟩)
        ⟨EHttpRequestStatus.Succeeded⟩ (some ⟨200, "application/json", ""⟩)
        true RequestOutcome.Success RequestOutcome.Failure =
      some (RequestOutcome.Success ⟨[]⟩ Status.kSuccessCode) :=
  ⟨(HandleResultOfRequest_success
      (Externals.sample ⟨[("sub", FJsonValue.String "user")]⟩)
      ⟨EHttpRequestStatus.Succeeded⟩ ⟨201, "application/json", "json"⟩ true
      RequestOutcome.Success RequestOutcome.Failure
      (by decide) (by decide) (by decide)).1
      ⟨[("sub", FJsonValue.String "user")]⟩ (by decide),
    (HandleResultOfRequest_success
      (Externals.sample ⟨[("sub", FJsonValue.String "user")]⟩)
      ⟨EHttpRequestStatus.Succeeded⟩ ⟨200, "application/json", ""⟩ true
      RequestOutcome.Success RequestOutcome.Failure
      (by decide) (by decide) (by decide)).2 (by decide)⟩

/-! ## Manual authentication -/

/-- C9: manual flow, error received. For every redirect whose query has `error`
and no `code`, the handler sends no request, answers the browser with the
failure page and invokes the callback exactly once, with
`("", 0, "", kInvalidGrantErrorCode)`. -/
theorem HandleTheResultOfLoopbackAuthentication_error (X : Externals)
    (Callback OnComplete : Nat) (RedirectUri ClientId ClientSecret : String)
    (Request : FHttpServerRequest) (e : String)
    (hNoCode : TMapFind Request.QueryParams "code" = none)
    (hError : TMapFind Request.QueryParams "error" = some e) :
    HandleTheResultOfLoopbackAuthentication X Callback OnComplete RedirectUri
        ClientId ClientSecret Request =
      some [Event.OnComplete OnComplete
          "<!doctype><html><head><title>Authentication failed</title></head><body>Authentication failed. Return to the VO Importer, please. You can now close the tab. </body></html>",
        Event.ManualAuthenticationCallback Callback "" 0 ""
          Status.kInvalidGrantErrorCode] := by
  simp only [HandleTheResultOfLoopbackAuthentication,
    kManualAuthenticationResponseCodeField, hNoCode,
    kManualAuthenticationResponseErrorField, hError, Answer_failed]
  rfl

/-- Witness of C9: a redirect with `error = access_denied`. -/
theorem HandleTheResultOfLoopbackAuthentication_error_witness :
    HandleTheResultOfLoopbackAuthentication (Externals.sample ⟨[]⟩) 1 5
        "http://127.0.0.1:8080/google_oauth" "id" "secret"
        ⟨"/google_oauth", EHttpServerRequestVerbs.VERB_GET,
          [("error", "access_denied")]⟩ =
      some [Event.OnComplete 5
          "<!doctype><html><head><title>Authentication failed</title></head><body>Authentication failed. Return to the VO Importer, please. You can now close the tab. </body></html>",
        Event.ManualAuthenticationCallback 1 "" 0 ""
          Status.kInvalidGrantErrorCode] :=
  HandleTheResultOfLoopbackAuthentication_error (Externals.sample ⟨[]⟩) 1 5
    "http://127.0.0.1:8080/google_oauth" "id" "secret"
    ⟨"/google_oauth", EHttpServerRequestVerbs.VERB_GET,
      [("error", "access_denied")]⟩ "access_denied" (by decide) (by decide)

/-- C10, as stated, fails: a `200` exchange response `application/json` with
`access_token = "A"`, `refresh_token = "R"` and `expires_in = 3000000000` at
time `1700000000` is classified as a success and is not delivered as
`("A", 1700000000 + 3000000000, "R", kSuccessCode)`: the field is read as an
`int32`, and `3000000000` is not one. -/
theorem CodeExchange_result_counterexample :
    Classify
        (Externals.sample ⟨[("access_token", FJsonValue.String "A"),
          ("expires_in", FJsonValue.Number 3000000000),
          ("refresh_token", FJsonValue.String "R")]⟩)
        ⟨EHttpRequestStatus.Succeeded⟩ (some ⟨200, "application/json", "json"⟩)
        true =
      some (RequestOutcome.Success
        ⟨[("access_token", FJsonValue.String "A"),
          ("expires_in", FJsonValue.Number 3000000000),
          ("refresh_token", FJsonValue.String "R")]⟩ Status.kSuccessCode) ∧
    CodeExchange.OnProcessRequestComplete
        (Externals.sample ⟨[("access_token", FJsonValue.String "A"),
          ("expires_in", FJsonValue.Number 3000000000),
          ("refresh_token", FJsonValue.String "R")]⟩)
        1700000000 1 ⟨EHttpRequestStatus.Succeeded⟩
        (some ⟨200, "application/json", "json"⟩) true ≠
      some [Event.ManualAuthenticationCallback 1 "A" (1700000000 + 3000000000) "R"
        Status.kSuccessCode] := by
  decide

/-- C10, amended: code exchange result. When the exchange response is
classified as a success and its document has `access_token = A`,
`refresh_token = R` and `expires_in = E` at time `Now`, with `E` in the range of
`int32` and `Now + E` in the range of `int64`, the callback of the manual
authentication is invoked exactly once, with `(A, Now + E, R, kSuccessCode)`;
when the response is classified as a failure of kind `K`, the callback is
invoked exactly once, with `("", 0, "", K)`. -/
theorem CodeExchange_result (X : Externals) (Now : Int) (Callback : Nat)
    (Request : FHttpRequest) (Response : Option FHttpResponse)
    (bWasSuccessful : Bool) :
    (∀ (Data : FJsonObject) (Code : Status) (A R : String) (E : Int),
      Classify X Request Response bWasSuccessful =
        some (RequestOutcome.Success Data Code) →
      TMapFind Data.Values "access_token" = some (FJsonValue.String A) →
      TMapFind Data.Values "refresh_token" = some (FJsonValue.String R) →
      TMapFind Data.Values "expires_in" = some (FJsonValue.Number E) →
      -2 ^ 31 ≤ E ∧ E < 2 ^ 31 →
      -2 ^ 63 ≤ Now + E ∧ Now + E < 2 ^ 63 →
      CodeExchange.OnProcessRequestComplete X Now Callback Request Response
          bWasSuccessful =
        some [Event.ManualAuthenticationCallback Callback A (Now + E) R
          Status.kSuccessCode]) ∧
    (∀ K : Status,
      Classify X Request Response bWasSuccessful = some (RequestOutcome.Failure K) →
      CodeExchange.OnProcessRequestComplete X Now Callback Request Response
          bWasSuccessful =
        some [Event.ManualAuthenticationCallback Callback "" 0 "" K]) := by
  constructor
  · intro Data Code A R E hOutcome hA hR hE hInt32 hInt64
    unfold CodeExchange.OnProcessRequestComplete
    rw [HandleResultOfRequest_eq_Classify, hOutcome]
    simp [FJsonObject.TryGetStringField, FJsonObject.GetIntegerField,
      kCodeExchangeResponseAccessTokenField, kCodeExchangeResponseRefreshTokenField,
      kCodeExchangeResponseExpiresInField, hA, hR, hE,
      CastToInt32_of_range _ E hInt32.1 hInt32.2,
      wrapInt64_of_range (Now + E) hInt64.1 hInt64.2]
  · intro K hK
    unfold CodeExchange.OnProcessRequestComplete
    rw [HandleResultOfRequest_eq_Classify, hK]
    rfl

/-- Witness of C10 amended: a `200` exchange response with the three fields at
time `1700000000`, and a `401` response with `error = "invalid_client"`. -/
theorem CodeExchange_result_witness :
    CodeExchange.OnProcessRequestComplete
        (Externals.sample ⟨[("access_token", FJsonValue.String "A"),
          ("expires_in", FJsonValue.Number 3599),
          ("refresh_token", FJsonValue.String "R")]⟩)
        1700000000 1 ⟨EHttpRequestStatus.Succeeded⟩
        (some ⟨200, "application/json; charset=utf-8", "json"⟩) true =
      some [Event.ManualAuthenticationCallback 1 "A"
        (1700000000 + 3599) "R" Status.kSuccessCode] ∧
    CodeExchange.OnProcessRequestComplete
        (Externals.sample ⟨[("error", FJsonValue.String "invalid_client")]⟩)
        1700000000 1 ⟨EHttpRequestStatus.Succeeded⟩
        (some ⟨401, "application/json", "json"⟩) true =
      some [Event.ManualAuthenticationCallback 1 "" 0 ""
        Status.kUnknownErrorCode] :=
  ⟨(CodeExchange_result
      (Externals.sample ⟨[("access_token", FJsonValue.String "A"),
        ("expires_in", FJsonValue.Number 3599),
        ("refresh_token", FJsonValue.String "R")]⟩)
      1700000000 1 ⟨EHttpRequestStatus.Succeeded⟩
      (some ⟨200, "application/json; charset=utf-8", "json"⟩) true).1
      ⟨[("access_token", FJsonValue.String "A"),
        ("expires_in", FJsonValue.Number 3599),
        ("refresh_token", FJsonValue.String "R")]⟩ Status.kSuccessCode "A" "R" 3599
      (by decide) (by decide) (by decide) (by decide) (by decide) (by decide),
    (CodeExchange_result
      (Externals.sample ⟨[("error", FJsonValue.String "invalid_client")]⟩)
      1700000000 1 ⟨EHttpRequestStatus.Succeeded⟩
      (some ⟨401, "application/json", "json"⟩) true).2
      Status.kUnknownErrorCode (by decide)⟩

/-! ## Code exchange: completeness of the document -/

/-- C11: code exchange, completeness. For every exchange response read after a
connection that did not fail, with MIME type `application/json` and a code in
`[200,300)`, whose document lacks `refresh_token` or lacks `access_token`, the
callback of the manual authentication is invoked exactly once, with
`("", 0, "", kInvalidResponseFormatCode)`, whatever the other fields are. -/
theorem CodeExchange_incomplete (X : Externals) (Now : Int) (Callback : Nat)
    (Request : FHttpRequest) (Response : FHttpResponse) (bWasSuccessful : Bool)
    (hConn : Request.Status ≠ EHttpRequestStatus.Failed_ConnectionError)
    (hMime : ExtractMimeFromContentType Response.ContentType = "application/json")
    (hCode : 200 ≤ Response.ResponseCode ∧ Response.ResponseCode < 300)
    (hLacks :
      TMapFind ((X.Deserialize Response.ContentAsString).getD ⟨[]⟩).Values
          "refresh_token" = none ∨
        TMapFind ((X.Deserialize Response.ContentAsString).getD ⟨[]⟩).Values
          "access_token" = none) :
    CodeExchange.OnProcessRequestComplete X Now Callback Request (some Response)
        bWasSuccessful =
      some [Event.ManualAuthenticationCallback Callback "" 0 ""
        Status.kInvalidResponseFormatCode] := by
  have hCode2 : Response.ResponseCode ≥ 200 ∧ Response.ResponseCode < 300 := hCode
  unfold CodeExchange.OnProcessRequestComplete HandleResultOfRequest
  simp only [ne_eq, hConn, not_false_eq_true, if_true, hMime, kJsonContentType,
    FStringEquals_self, hCode2, and_self, FJsonObject.TryGetStringField,
    FJsonObject.MakeShared, kCodeExchangeResponseAccessTokenField,
    kCodeExchangeResponseRefreshTokenField]
  rcases hLacks with h | h
  · rw [h]
    split <;> simp_all
  · rw [h]

/-- Witness of C11: a `200` response with `access_token` and `expires_in` and no
`refresh_token`, and a `200` response with `refresh_token` and no
`access_token`. -/
theorem CodeExchange_incomplete_witness :
    CodeExchange.OnProcessRequestComplete
        (Externals.sample ⟨[("access_token", FJsonValue.String "A"),
          ("expires_in", FJsonValue.Number 3599)]⟩)
        1700000000 1 ⟨EHttpRequestStatus.Succeeded⟩
        (some ⟨200, "application/json", "json"⟩) true =
      some [Event.ManualAuthenticationCallback 1 "" 0 ""
        Status.kInvalidResponseFormatCode] ∧
    CodeExchange.OnProcessRequestComplete
        (Externals.sample ⟨[("refresh_token", FJsonValue.String "R"),
          ("expires_in", FJsonValue.Number 3599)]⟩)
        1700000000 1 ⟨EHttpRequestStatus.Succeeded⟩
        (some ⟨200, "application/json", "json"⟩) true =
      some [Event.ManualAuthenticationCallback 1 "" 0 ""
        Status.kInvalidResponseFormatCode] :=
  ⟨CodeExchange_incomplete
      (Externals.sample ⟨[("access_token", FJsonValue.String "A"),
        ("expires_in", FJsonValue.Number 3599)]⟩)
      1700000000 1 ⟨EHttpRequestStatus.Succeeded⟩
      ⟨200, "application/json", "json"⟩ true
      (by decide) (by decide) (by decide) (Or.inl (by decide)),
    CodeExchange_incomplete
      (Externals.sample ⟨[("refresh_token", FJsonValue.String "R"),
        ("expires_in", FJsonValue.Number 3599)]⟩)
      1700000000 1 ⟨EHttpRequestStatus.Succeeded⟩
      ⟨200, "application/json", "json"⟩ true
      (by decide) (by decide) (by decide) (Or.inr (by decide))⟩

/-- C12, the code at the failing input: a `200` exchange response
`application/json` whose document has `access_token = "A"`,
`refresh_token = "R"` and no `expires_in` field is delivered as `kSuccessCode`
with `ExpiresOn` equal to the time of the completion, not as
`kInvalidResponseFormatCode`. -/
theorem CodeExchange_missing_expires_in :
    TMapFind [("access_token", FJsonValue.String "A"),
      ("refresh_token", FJsonValue.String "R")] "expires_in" = none ∧
    CodeExchange.OnProcessRequestComplete
        (Externals.sample ⟨[("access_token", FJsonValue.String "A"),
          ("refresh_token", FJsonValue.String "R")]⟩)
        1700000000 1 ⟨EHttpRequestStatus.Succeeded⟩
        (some ⟨200, "application/json", "json"⟩) true =
      some [Event.ManualAuthenticationCallback 1 "A" 1700000000 "R"
        Status.kSuccessCode] := by
  decide

/-! ## Runs of the manual flow: lemmas -/

theorem CodeExchange_delivers_once (X : Externals) (Now : Int) (Callback : Nat)
    (Request : FHttpRequest) (Response : Option FHttpResponse) (b : Bool)
    (Events : List Event)
    (h : CodeExchange.OnProcessRequestComplete X Now Callback Request Response b =
      some Events) :
    ∃ T E R K, Events = [Event.ManualAuthenticationCallback Callback T E R K] := by
  unfold CodeExchange.OnProcessRequestComplete at h
  rw [HandleResultOfRequest_eq_Classify] at h
  cases hC : Classify X Request Response b with
  | none => rw [hC] at h; simp at h
  | some Outcome =>
    rw [hC] at h
    simp only [Option.map_some', Option.some.injEq] at h
    subst h
    cases Outcome with
    | Success Data Code =>
      dsimp only
      split <;> exact ⟨_, _, _, _, rfl⟩
    | Failure K => exact ⟨_, _, _, _, rfl⟩

theorem HandleTheResultOfLoopbackAuthentication_events (X : Externals)
    (Callback OnComplete : Nat) (RedirectUri ClientId ClientSecret : String)
    (Request : FHttpServerRequest) (Events : List Event)
    (h : HandleTheResultOfLoopbackAuthentication X Callback OnComplete RedirectUri
      ClientId ClientSecret Request = some Events) :
    (∃ Body Sent, Events = [Event.OnComplete OnComplete Body,
        Event.ProcessRequest Sent] ∧
      Sent.OnProcessRequestComplete = HttpRequestCallback.CodeExchange Callback) ∨
    (∃ Body, Events = [Event.OnComplete OnComplete Body,
      Event.ManualAuthenticationCallback Callback "" 0 ""
        Status.kInvalidGrantErrorCode]) := by
  unfold HandleTheResultOfLoopbackAuthentication at h
  split at h
  · simp only [Option.some.injEq] at h
    subst h
    exact Or.inl ⟨_, _, rfl, rfl⟩
  · split at h
    · simp at h
    · simp only [Option.some.injEq] at h
      subst h
      exact Or.inr ⟨_, rfl⟩

theorem Redirect_callback_le_one (X : Externals) (W : World) (R : Redirect)
    (Events : List Event) (h : W.Redirect X R = some Events) (Callback : Nat) :
    ManualAuthenticationCallbackCount Callback Events ≤ 1 := by
  unfold World.Redirect at h
  cases hH : W.HandleRequest X R.Port R.Request R.OnComplete with
  | none => rw [hH] at h; simp at h
  | some Handled =>
    rw [hH] at h
    simp only at h
    -- events of the handler
    have hShape : Handled = [] ∨
        (∃ Cb Body Sent, Handled = [Event.OnComplete R.OnComplete Body,
            Event.ProcessRequest Sent] ∧
          Sent.OnProcessRequestComplete = HttpRequestCallback.CodeExchange Cb) ∨
        (∃ Cb Body, Handled = [Event.OnComplete R.OnComplete Body,
          Event.ManualAuthenticationCallback Cb "" 0 ""
            Status.kInvalidGrantErrorCode]) := by
      unfold World.HandleRequest at hH
      split at hH
      · split at hH
        · rcases HandleTheResultOfLoopbackAuthentication_events _ _ _ _ _ _ _ _ hH
            with ⟨Body, Sent, h1, h2⟩ | ⟨Body, h1⟩
          · exact Or.inr (Or.inl ⟨_, Body, Sent, h1, h2⟩)
          · exact Or.inr (Or.inr ⟨_, Body, h1⟩)
        · simp only [Option.some.injEq] at hH
          exact Or.inl hH.symm
      · simp only [Option.some.injEq] at hH
        exact Or.inl hH.symm
    rcases hShape with h0 | ⟨Cb, Body, Sent, h1, h2⟩ | ⟨Cb, Body, h1⟩
    · subst h0
      cases hC : R.Completion with
      | none => rw [hC] at h; simp at h; subst h; simp [ManualAuthenticationCallbackCount]
      | some Completion =>
        rw [hC] at h
        simp [CompleteRequests] at h
        subst h
        simp [ManualAuthenticationCallbackCount]
    · subst h1
      cases hC : R.Completion with
      | none =>
        rw [hC] at h; simp at h; subst h
        simp [ManualAuthenticationCallbackCount, Event.IsManualAuthenticationCallbackOf]
      | some Completion =>
        rw [hC] at h
        simp only [CompleteRequests, h2, HttpRequestCallback.Execute] at h
        cases hE : CodeExchange.OnProcessRequestComplete X Completion.Now Cb
            Completion.Request Completion.Response Completion.bWasSuccessful with
        | none => rw [hE] at h; simp at h
        | some Delivered =>
          rw [hE] at h
          obtain ⟨T, E, Rt, K, hD⟩ := CodeExchange_delivers_once _ _ _ _ _ _ _ hE
          subst hD
          simp at h
          subst h
          simp only [ManualAuthenticationCallbackCount, List.countP_cons,
            List.countP_nil, Event.IsManualAuthenticationCallbackOf]
          split <;> simp
    · subst h1
      cases hC : R.Completion with
      | none =>
        rw [hC] at h; simp at h; subst h
        simp only [ManualAuthenticationCallbackCount, List.countP_cons,
          List.countP_nil, Event.IsManualAuthenticationCallbackOf]
        split <;> simp
      | some Completion =>
        rw [hC] at h
        simp [CompleteRequests] at h
        subst h
        simp only [ManualAuthenticationCallbackCount, List.countP_cons,
          List.countP_nil, Event.IsManualAuthenticationCallbackOf]
        split <;> simp

theorem Run_redirects (X : Externals) (Redirects : List Redirect) :
    ∀ (W W2 : World) (Events : List Event),
      World.Run X W (Redirects.map Action.Redirect) = some (W2, Events) →
      W2 = W ∧ ∀ Callback : Nat,
        ManualAuthenticationCallbackCount Callback Events ≤ Redirects.length := by
  induction Redirects with
  | nil =>
    intro W W2 Events h
    simp only [List.map_nil, World.Run, Option.some.injEq, Prod.mk.injEq] at h
    obtain ⟨h1, h2⟩ := h
    subst h1 h2
    exact ⟨rfl, fun _ => by simp [ManualAuthenticationCallbackCount]⟩
  | cons R Rest ih =>
    intro W W2 Events h
    simp only [List.map_cons, World.Run, World.Step] at h
    cases hR : W.Redirect X R with
    | none => rw [hR] at h; simp at h
    | some Events1 =>
      rw [hR] at h
      simp only at h
      cases hRest : World.Run X W (Rest.map Action.Redirect) with
      | none => rw [hRest] at h; simp at h
      | some Result =>
        obtain ⟨W3, Events2⟩ := Result
        rw [hRest] at h
        simp only [Option.some.injEq, Prod.mk.injEq] at h
        obtain ⟨h1, h2⟩ := h
        subst h1 h2
        obtain ⟨hW, hCount⟩ := ih W W3 Events2 hRest
        refine ⟨hW, fun Callback => ?_⟩
        have h1 := Redirect_callback_le_one X W R Events1 hR Callback
        have h2 := hCount Callback
        simp only [ManualAuthenticationCallbackCount, List.countP_append,
          List.length_cons] at h1 h2 ⊢
        omega

theorem Redirect_error (X : Externals) (W : World) (R : Redirect)
    (Route : FHttpRouteHandleInternal) (e : String)
    (hRoute : W.HttpServer.FindRoute R.Port R.Request.RelativePath = some Route)
    (hVerb : R.Request.Verb ∈ Route.Verbs)
    (hNoCode : TMapFind R.Request.QueryParams "code" = none)
    (hError : TMapFind R.Request.QueryParams "error" = some e) :
    W.Redirect X R =
      some (Answer R.OnComplete "Authentication failed"
          "Authentication failed. Return to the VO Importer, please." ++
        [Event.ManualAuthenticationCallback Route.Handler.Callback "" 0 ""
          Status.kInvalidGrantErrorCode]) := by
  have hH : W.HandleRequest X R.Port R.Request R.OnComplete =
      some (Answer R.OnComplete "Authentication failed"
          "Authentication failed. Return to the VO Importer, please." ++
        [Event.ManualAuthenticationCallback Route.Handler.Callback "" 0 ""
          Status.kInvalidGrantErrorCode]) := by
    unfold World.HandleRequest
    rw [hRoute]
    simp only [hVerb, if_true, FHttpRequestHandler.Execute,
      HandleTheResultOfLoopbackAuthentication,
      kManualAuthenticationResponseCodeField, hNoCode,
      kManualAuthenticationResponseErrorField, hError]
  unfold World.Redirect
  rw [hH]
  cases R.Completion with
  | none => rfl
  | some Completion => simp [Answer, CompleteRequests]

theorem Run_error_redirects (X : Externals) (W : World) (P : Int)
    (Route : FHttpRouteHandleInternal)
    (hRoute : W.HttpServer.FindRoute P kLoopbackAddressPath = some Route)
    (hVerbs : Route.Verbs =
      [EHttpServerRequestVerbs.VERB_GET, EHttpServerRequestVerbs.VERB_POST])
    (Redirects : List Redirect)
    (hAll : ∀ R ∈ Redirects, R.Port = P ∧
      R.Request.RelativePath = kLoopbackAddressPath ∧
      (R.Request.Verb = EHttpServerRequestVerbs.VERB_GET ∨
        R.Request.Verb = EHttpServerRequestVerbs.VERB_POST) ∧
      TMapFind R.Request.QueryParams "code" = none ∧
      (TMapFind R.Request.QueryParams "error").isSome = true) :
    ∃ Events, World.Run X W (Redirects.map Action.Redirect) = some (W, Events) ∧
      ManualAuthenticationCallbackCount Route.Handler.Callback Events =
        Redirects.length := by
  induction Redirects with
  | nil => exact ⟨[], rfl, rfl⟩
  | cons R Rest ih =>
    obtain ⟨Events2, hRun, hCount⟩ := ih (fun R1 h1 => hAll R1 (by simp [h1]))
    obtain ⟨hP, hPath, hVerb, hNoCode, hErr⟩ := hAll R (by simp)
    obtain ⟨e, hError⟩ := Option.isSome_iff_exists.mp hErr
    have hMem : R.Request.Verb ∈ Route.Verbs := by
      rw [hVerbs]
      rcases hVerb with h | h <;> simp [h]
    have hStep := Redirect_error X W R Route e (by rw [hP, hPath]; exact hRoute)
      hMem hNoCode hError
    refine ⟨(Answer R.OnComplete "Authentication failed"
        "Authentication failed. Return to the VO Importer, please." ++
      [Event.ManualAuthenticationCallback Route.Handler.Callback "" 0 ""
        Status.kInvalidGrantErrorCode]) ++ Events2, ?_, ?_⟩
    · simp only [List.map_cons, World.Run, World.Step, hStep, hRun]
    · simp only [ManualAuthenticationCallbackCount, Answer, List.countP_append,
        List.countP_cons, List.countP_nil, Event.IsManualAuthenticationCallbackOf,
        List.length_cons] at hCount ⊢
      simp [hCount]
      omega

/-! ## Manual authentication: redirects after the call -/

/-- C13, as stated, fails: after a single call of `AuthenticateManually` on port
`8080`, two redirects with `error` invoke the callback of that call twice. -/
theorem ManualFlow_at_most_once_counterexample :
    (World.Run (Externals.sample ⟨[]⟩) World.initial
      [Action.AuthenticateManually 1 AuthenticationMethod.LoopbackIp "email" "id"
        "secret" 8080,
       Action.Redirect ⟨8080, ⟨"/google_oauth", EHttpServerRequestVerbs.VERB_GET,
        [("error", "access_denied")]⟩, 5, none⟩,
       Action.Redirect ⟨8080, ⟨"/google_oauth", EHttpServerRequestVerbs.VERB_GET,
        [("error", "access_denied")]⟩, 6, none⟩]).map
      (fun Result => ManualAuthenticationCallbackCount 1 Result.2) = some 2 := by
  decide

/-- C13, amended: after a single call of `AuthenticateManually`, every redirect
that arrives invokes the callback of the call at most once (by its handler, or
by the completion of the one exchange request the handler sends), so `n`
redirects invoke it at most `n` times in total; the route stays bound, and `n`
redirects with `error` and no `code` on the loopback path invoke it exactly `n`
times. -/
theorem ManualFlow_once_per_redirect (X : Externals) (W : World) (Callback : Nat)
    (Scopes ClientId ClientSecret : String) (P : Int)
    (Redirects : List Redirect) :
    (∀ (W2 : World) (Events : List Event),
      World.Run X
          (AuthenticateManually X W Callback AuthenticationMethod.LoopbackIp
            Scopes ClientId ClientSecret P).1
          (Redirects.map Action.Redirect) = some (W2, Events) →
      ManualAuthenticationCallbackCount Callback Events ≤ Redirects.length) ∧
    ((W.HttpServer.bIsAvailable = true ∨ W.HttpServer.bLoads = true) →
      (∀ h, W.RouterHandle = some h → h.Path = "/google_oauth") →
      (W.RouterHandle = none → W.HttpServer.FindRoute P "/google_oauth" = none) →
      (∀ R ∈ Redirects, R.Port = P ∧ R.Request.RelativePath = "/google_oauth" ∧
        (R.Request.Verb = EHttpServerRequestVerbs.VERB_GET ∨
          R.Request.Verb = EHttpServerRequestVerbs.VERB_POST) ∧
        TMapFind R.Request.QueryParams "code" = none ∧
        (TMapFind R.Request.QueryParams "error").isSome = true) →
      ∃ Events,
        World.Run X
            (AuthenticateManually X W Callback AuthenticationMethod.LoopbackIp
              Scopes ClientId ClientSecret P).1
            (Redirects.map Action.Redirect) =
          some ((AuthenticateManually X W Callback AuthenticationMethod.LoopbackIp
            Scopes ClientId ClientSecret P).1, Events) ∧
        ManualAuthenticationCallbackCount Callback Events = Redirects.length) := by
  constructor
  · intro W2 Events hRun
    exact (Run_redirects X Redirects _ W2 Events hRun).2 Callback
  · intro hAvail hOwn hFree hAll
    have hRoute := (AuthenticateManually_binds X W Callback Scopes ClientId
      ClientSecret P hAvail (by simpa [kLoopbackAddressPath] using hOwn)
      (by simpa [kLoopbackAddressPath] using hFree)).2
    exact Run_error_redirects X _ P _ hRoute rfl Redirects
      (by simpa [kLoopbackAddressPath] using hAll)

/-- Witness of C13 amended: a call on port `8080`, then a redirect with `code`
whose exchange completes with a `200` response, and a redirect with `error`:
two invocations for two redirects; and two redirects with `error`. -/
theorem ManualFlow_once_per_redirect_witness :
    ManualAuthenticationCallbackCount 1
        [Event.OnComplete 5
          "<!doctype><html><head><title>Authentication succeed</title></head><body>Authentication succeed. Return to the VO Importer, please. You can now close the tab. </body></html>",
        Event.ProcessRequest
          { Verb := "POST"
            Headers := [("Content-Type", "application/x-www-form-urlencoded")]
            URL := "https://oauth2.googleapis.com/token"
            Content :=
              "code=abc&client_id=id&client_secret=secret&redirect_uri=http://127.0.0.1:8080/google_oauth&grant_type=authorization_code"
            OnProcessRequestComplete := HttpRequestCallback.CodeExchange 1 },
        Event.ManualAuthenticationCallback 1 "A" 1700003599 "R" Status.kSuccessCode,
        Event.OnComplete 6
          "<!doctype><html><head><title>Authentication failed</title></head><body>Authentication failed. Return to the VO Importer, please. You can now close the tab. </body></html>",
        Event.ManualAuthenticationCallback 1 "" 0 "" Status.kInvalidGrantErrorCode] ≤
      2 ∧
    (∃ Events,
      World.Run (Externals.sample ⟨[]⟩)
          (AuthenticateManually (Externals.sample ⟨[]⟩) World.initial 1
            AuthenticationMethod.LoopbackIp "email" "id" "secret" 8080).1
          ([⟨8080, ⟨"/google_oauth", EHttpServerRequestVerbs.VERB_GET,
              [("error", "access_denied")]⟩, 5, none⟩,
            ⟨8080, ⟨"/google_oauth", EHttpServerRequestVerbs.VERB_POST,
              [("error", "access_denied")]⟩, 6, none⟩].map Action.Redirect) =
        some ((AuthenticateManually (Externals.sample ⟨[]⟩) World.initial 1
          AuthenticationMethod.LoopbackIp "email" "id" "secret" 8080).1, Events) ∧
      ManualAuthenticationCallbackCount 1 Events = 2) :=
  ⟨(ManualFlow_once_per_redirect
      (Externals.sample ⟨[("access_token", FJsonValue.String "A"),
        ("refresh_token", FJsonValue.String "R"),
        ("expires_in", FJsonValue.Number 3599)]⟩)
      World.initial 1 "email" "id" "secret" 8080
      [⟨8080, ⟨"/google_oauth", EHttpServerRequestVerbs.VERB_GET,
          [("code", "abc")]⟩, 5,
          some ⟨1700000000, ⟨EHttpRequestStatus.Succeeded⟩,
            some ⟨200, "application/json", "json"⟩, true⟩⟩,
        ⟨8080, ⟨"/google_oauth", EHttpServerRequestVerbs.VERB_GET,
          [("error", "access_denied")]⟩, 6, none⟩]).1
      (AuthenticateManually
        (Externals.sample ⟨[("access_token", FJsonValue.String "A"),
          ("refresh_token", FJsonValue.String "R"),
          ("expires_in", FJsonValue.Number 3599)]⟩)
        World.initial 1 AuthenticationMethod.LoopbackIp "email" "id" "secret"
        8080).1 _ (by decide),
    (ManualFlow_once_per_redirect (Externals.sample ⟨[]⟩) World.initial 1 "email"
      "id" "secret" 8080
      [⟨8080, ⟨"/google_oauth", EHttpServerRequestVerbs.VERB_GET,
          [("error", "access_denied")]⟩, 5, none⟩,
        ⟨8080, ⟨"/google_oauth", EHttpServerRequestVerbs.VERB_POST,
          [("error", "access_denied")]⟩, 6, none⟩]).2
      (by decide) (by decide) (by decide) (by decide)⟩

/-- C14, as stated, fails: after a call on port `8080`, both when a redirect
with `error` has delivered the callback and when a redirect with `code` has
delivered it at the completion of the exchange, a route for the loopback path
is still registered on the router of port `8080`. -/
theorem ManualFlow_route_release_counterexample :
    (World.Run (Externals.sample ⟨[]⟩) World.initial
      [Action.AuthenticateManually 1 AuthenticationMethod.LoopbackIp "email" "id"
        "secret" 8080,
       Action.Redirect ⟨8080, ⟨"/google_oauth", EHttpServerRequestVerbs.VERB_GET,
        [("error", "access_denied")]⟩, 5, none⟩]).map
      (fun Result => (ManualAuthenticationCallbackCount 1 Result.2,
        (Result.1.HttpServer.FindRoute 8080 "/google_oauth").isSome)) =
      some (1, true) ∧
    (World.Run
      (Externals.sample ⟨[("access_token", FJsonValue.String "A"),
        ("refresh_token", FJsonValue.String "R"),
        ("expires_in", FJsonValue.Number 3599)]⟩) World.initial
      [Action.AuthenticateManually 1 AuthenticationMethod.LoopbackIp "email" "id"
        "secret" 8080,
       Action.Redirect ⟨8080, ⟨"/google_oauth", EHttpServerRequestVerbs.VERB_GET,
        [("code", "abc")]⟩, 5,
        some ⟨1700000000, ⟨EHttpRequestStatus.Succeeded⟩,
          some ⟨200, "application/json", "json"⟩, true⟩⟩]).map
      (fun Result => (ManualAuthenticationCallbackCount 1 Result.2,
        (Result.1.HttpServer.FindRoute 8080 "/google_oauth").isSome)) =
      some (1, true) := by
  decide

/-- C14, amended: whenever a manual-authentication flow that bound its route
reaches a terminal state, after any redirects and exchange completions, the
loopback route bound by that flow is still registered on the router of its
port, with the handler of that flow: neither the redirect handler nor the
exchange completion unbinds it. -/
theorem ManualFlow_route_stays_bound (X : Externals) (W : World) (Callback : Nat)
    (Scopes ClientId ClientSecret : String) (P : Int)
    (Redirects : List Redirect) (W2 : World) (Events : List Event)
    (hAvail : W.HttpServer.bIsAvailable = true ∨ W.HttpServer.bLoads = true)
    (hOwn : ∀ h, W.RouterHandle = some h → h.Path = "/google_oauth")
    (hFree : W.RouterHandle = none →
      W.HttpServer.FindRoute P "/google_oauth" = none)
    (hRun : World.Run X
        (AuthenticateManually X W Callback AuthenticationMethod.LoopbackIp Scopes
          ClientId ClientSecret P).1
        (Redirects.map Action.Redirect) = some (W2, Events)) :
    W2.HttpServer.FindRoute P "/google_oauth" =
      some
        { Path := "/google_oauth"
          Verbs := [EHttpServerRequestVerbs.VERB_GET,
            EHttpServerRequestVerbs.VERB_POST]
          Handler :=
            { Callback := Callback
              RedirectUri := "http://127.0.0.1:" ++ toString P ++ "/google_oauth"
              ClientId := ClientId
              ClientSecret := ClientSecret } } := by
  have hRoute := (AuthenticateManually_binds X W Callback Scopes ClientId
    ClientSecret P hAvail (by simpa [kLoopbackAddressPath] using hOwn)
    (by simpa [kLoopbackAddressPath] using hFree)).2
  rw [(Run_redirects X Redirects _ W2 Events hRun).1]
  exact hRoute

/-- Witness of C14 amended: a call on port `8080`, then a redirect with `code`
whose exchange completes with a `200` response and a redirect with `error`. -/
theorem ManualFlow_route_stays_bound_witness :
    (AuthenticateManually
        (Externals.sample ⟨[("access_token", FJsonValue.String "A"),
          ("refresh_token", FJsonValue.String "R"),
          ("expires_in", FJsonValue.Number 3599)]⟩)
        World.initial 1 AuthenticationMethod.LoopbackIp "email" "id" "secret"
        8080).1.HttpServer.FindRoute 8080 "/google_oauth" =
      some
        { Path := "/google_oauth"
          Verbs := [EHttpServerRequestVerbs.VERB_GET,
            EHttpServerRequestVerbs.VERB_POST]
          Handler :=
            { Callback := 1
              RedirectUri := "http://127.0.0.1:" ++ toString (8080 : Int) ++
                "/google_oauth"
              ClientId := "id"
              ClientSecret := "secret" } } :=
  ManualFlow_route_stays_bound
    (Externals.sample ⟨[("access_token", FJsonValue.String "A"),
      ("refresh_token", FJsonValue.String "R"),
      ("expires_in", FJsonValue.Number 3599)]⟩)
    World.initial 1 "email" "id" "secret" 8080
    [⟨8080, ⟨"/google_oauth", EHttpServerRequestVerbs.VERB_GET,
        [("code", "abc")]⟩, 5,
        some ⟨1700000000, ⟨EHttpRequestStatus.Succeeded⟩,
          some ⟨200, "application/json", "json"⟩, true⟩⟩,
      ⟨8080, ⟨"/google_oauth", EHttpServerRequestVerbs.VERB_GET,
        [("error", "access_denied")]⟩, 6, none⟩]
    (AuthenticateManually
      (Externals.sample ⟨[("access_token", FJsonValue.String "A"),
        ("refresh_token", FJsonValue.String "R"),
        ("expires_in", FJsonValue.Number 3599)]⟩)
      World.initial 1 AuthenticationMethod.LoopbackIp "email" "id" "secret"
      8080).1
    [Event.OnComplete 5
        "<!doctype><html><head><title>Authentication succeed</title></head><body>Authentication succeed. Return to the VO Importer, please. You can now close the tab. </body></html>",
      Event.ProcessRequest
        { Verb := "POST"
          Headers := [("Content-Type", "application/x-www-form-urlencoded")]
          URL := "https://oauth2.googleapis.com/token"
          Content :=
            "code=abc&client_id=id&client_secret=secret&redirect_uri=http://127.0.0.1:8080/google_oauth&grant_type=authorization_code"
          OnProcessRequestComplete := HttpRequestCallback.CodeExchange 1 },
      Event.ManualAuthenticationCallback 1 "A" 1700003599 "R" Status.kSuccessCode,
      Event.OnComplete 6
        "<!doctype><html><head><title>Authentication failed</title></head><body>Authentication failed. Return to the VO Importer, please. You can now close the tab. </body></html>",
      Event.ManualAuthenticationCallback 1 "" 0 "" Status.kInvalidGrantErrorCode]
    (by decide) (by decide) (by decide) (by decide)

/-- C15, the code at the failing input: a call with callback `1` on port `8080`
and then a call with callback `2` on port `8081` leave two loopback routes
bound, one on each router, and a redirect that then arrives on port `8080`
invokes the callback of the first call. -/
theorem AuthenticateManually_two_ports :
    (World.Run (Externals.sample ⟨[]⟩) World.initial
      [Action.AuthenticateManually 1 AuthenticationMethod.LoopbackIp "email" "id"
        "secret" 8080,
       Action.AuthenticateManually 2 AuthenticationMethod.LoopbackIp "email" "id"
        "secret" 8081]).map
      (fun Result => Result.1.HttpServer.Routes.map
        (fun Bound => (Bound.1, Bound.2.Path, Bound.2.Handler.Callback))) =
      some [(8080, "/google_oauth", 1), (8081, "/google_oauth", 2)] ∧
    (World.Run (Externals.sample ⟨[]⟩) World.initial
      [Action.AuthenticateManually 1 AuthenticationMethod.LoopbackIp "email" "id"
        "secret" 8080,
       Action.AuthenticateManually 2 AuthenticationMethod.LoopbackIp "email" "id"
        "secret" 8081,
       Action.Redirect ⟨8080, ⟨"/google_oauth", EHttpServerRequestVerbs.VERB_GET,
        [("error", "access_denied")]⟩, 5, none⟩]).map
      (fun Result => (ManualAuthenticationCallbackCount 1 Result.2,
        ManualAuthenticationCallbackCount 2 Result.2)) = some (1, 0) := by
  decide

/-- C17, as stated, fails: with `bWasSuccessful = false` and the request status
`Failed`, a `200` response `application/json` is delivered as `kSuccessCode`
although the connection did not succeed; and a `200` response whose content
type is `APPLICATION/JSON`, a MIME type that is not the text
`application/json`, is delivered as `kSuccessCode` too. -/
theorem CheckAccessToken_status_counterexample :
    CheckAccessToken.OnProcessRequestComplete (Externals.sample ⟨[]⟩) 9
        ⟨EHttpRequestStatus.Failed⟩ (some ⟨200, "application/json", "json"⟩)
        false =
      some [Event.AccessTokenCheckCallback 9 Status.kSuccessCode] ∧
    ExtractMimeFromContentType "APPLICATION/JSON" ≠ "application/json" ∧
    CheckAccessToken.OnProcessRequestComplete (Externals.sample ⟨[]⟩) 9
        ⟨EHttpRequestStatus.Succeeded⟩ (some ⟨200, "APPLICATION/JSON", ""⟩)
        true =
      some [Event.AccessTokenCheckCallback 9 Status.kSuccessCode] := by
  decide

/-- C17, amended: status of the access token check. For every completion that
carries a response, whatever `bWasSuccessful`, the callback is invoked with
`kSuccessCode` if and only if the request status is not
`Failed_ConnectionError`, the MIME type of the response is `application/json`
up to the case of the letters and `200 <= code < 300`, whatever the body; a
response that does not meet this condition is always given a failure by
`HandleResultOfRequest`; whenever `HandleResultOfRequest` chooses a failure `K`,
for a completion with or without a response, that `K` is not `kSuccessCode` and
is delivered unchanged; and a completion whose request status is
`Failed_ConnectionError` is given the failure `kConnectionErrorCode`. -/
theorem CheckAccessToken_status (X : Externals) (Callback : Nat)
    (Request : FHttpRequest) (Response : FHttpResponse)
    (bWasSuccessful : Bool) :
    (CheckAccessToken.OnProcessRequestComplete X Callback Request (some Response)
          bWasSuccessful =
        some [Event.AccessTokenCheckCallback Callback Status.kSuccessCode] ↔
      Request.Status ≠ EHttpRequestStatus.Failed_ConnectionError ∧
        FStringEquals (ExtractMimeFromContentType Response.ContentType)
          "application/json" = true ∧
        200 ≤ Response.ResponseCode ∧ Response.ResponseCode < 300) ∧
    (¬ (Request.Status ≠ EHttpRequestStatus.Failed_ConnectionError ∧
        FStringEquals (ExtractMimeFromContentType Response.ContentType)
          "application/json" = true ∧
        200 ≤ Response.ResponseCode ∧ Response.ResponseCode < 300) →
      ∃ K : Status,
        Classify X Request (some Response) bWasSuccessful =
          some (RequestOutcome.Failure K)) ∧
    (∀ (Completed : Option FHttpResponse) (K : Status),
      Classify X Request Completed bWasSuccessful =
        some (RequestOutcome.Failure K) →
      K ≠ Status.kSuccessCode ∧
        CheckAccessToken.OnProcessRequestComplete X Callback Request Completed
            bWasSuccessful =
          some [Event.AccessTokenCheckCallback Callback K]) ∧
    (Request.Status = EHttpRequestStatus.Failed_ConnectionError →
      ∀ Completed : Option FHttpResponse,
        Classify X Request Completed bWasSuccessful =
          some (RequestOutcome.Failure Status.kConnectionErrorCode)) := by
  refine ⟨?_, ?_, ?_, ?_⟩
  · unfold CheckAccessToken.OnProcessRequestComplete HandleResultOfRequest
      kJsonContentType
    by_cases hConn : Request.Status = EHttpRequestStatus.Failed_ConnectionError
    · simp [hConn]
    · by_cases hMime : FStringEquals
          (ExtractMimeFromContentType Response.ContentType)
          "application/json" = true
      · by_cases hCode : Response.ResponseCode ≥ 200 ∧ Response.ResponseCode < 300
        · simp [hConn, hMime, hCode]
        · constructor
          · intro h
            simp only [ne_eq, hConn, not_false_eq_true, if_true, hMime, hCode,
              if_false] at h
            split_ifs at h <;> simp at h
          · intro h
            exact absurd h.2.2 hCode
      · simp [hConn, hMime]
  · intro hNot
    unfold Classify HandleResultOfRequest
    by_cases hConn : Request.Status = EHttpRequestStatus.Failed_ConnectionError
    · simp [hConn]
    · simp only [ne_eq, hConn, not_false_eq_true, if_true, kJsonContentType]
      by_cases hMime : FStringEquals
          (ExtractMimeFromContentType Response.ContentType)
          "application/json" = true
      · have hCode : ¬ (Response.ResponseCode ≥ 200 ∧ Response.ResponseCode < 300) := by
          intro h
          exact hNot ⟨hConn, hMime, h.1, h.2⟩
        simp only [hMime, if_true, hCode, if_false]
        split_ifs <;> simp
      · simp [hMime]
  · intro Completed K hK
    constructor
    · intro hS
      subst hS
      unfold Classify HandleResultOfRequest at hK
      by_cases hConn : Request.Status = EHttpRequestStatus.Failed_ConnectionError
      · simp [hConn] at hK
      · cases Completed with
        | none => simp [hConn] at hK
        | some R =>
          simp only [ne_eq, hConn, not_false_eq_true, if_true] at hK
          split_ifs at hK <;> simp at hK
    · unfold CheckAccessToken.OnProcessRequestComplete
      rw [HandleResultOfRequest_eq_Classify, hK]
      rfl
  · intro hConn Completed
    simp [Classify, HandleResultOfRequest, hConn]

/-- Witness of C17 amended: a `200` response `application/json` with an empty
body is a success; a `404` response `application/json` is given a failure; a
`200` response `text/html` is delivered as
`kUnsupportedResponseContentTypeCode`; a connection error without a response is
given `kConnectionErrorCode`. -/
theorem CheckAccessToken_status_witness :
    CheckAccessToken.OnProcessRequestComplete (Externals.sample ⟨[]⟩) 9
        ⟨EHttpRequestStatus.Succeeded⟩ (some ⟨200, "application/json", ""⟩) true =
      some [Event.AccessTokenCheckCallback 9 Status.kSuccessCode] ∧
    (∃ K : Status,
      Classify (Externals.sample ⟨[]⟩) ⟨EHttpRequestStatus.Succeeded⟩
          (some ⟨404, "application/json", "json"⟩) true =
        some (RequestOutcome.Failure K)) ∧
    (Status.kUnsupportedResponseContentTypeCode ≠ Status.kSuccessCode ∧
      CheckAccessToken.OnProcessRequestComplete (Externals.sample ⟨[]⟩) 9
          ⟨EHttpRequestStatus.Succeeded⟩ (some ⟨200, "text/html", "json"⟩) true =
        some [Event.AccessTokenCheckCallback 9
          Status.kUnsupportedResponseContentTypeCode]) ∧
    Classify (Externals.sample ⟨[]⟩) ⟨EHttpRequestStatus.Failed_ConnectionError⟩
        none false =
      some (RequestOutcome.Failure Status.kConnectionErrorCode) :=
  ⟨(CheckAccessToken_status (Externals.sample ⟨[]⟩) 9
      ⟨EHttpRequestStatus.Succeeded⟩ ⟨200, "application/json", ""⟩ true).1.mpr
      ⟨by decide, by decide, by decide, by decide⟩,
    (CheckAccessToken_status (Externals.sample ⟨[]⟩) 9
      ⟨EHttpRequestStatus.Succeeded⟩ ⟨404, "application/json", "json"⟩
      true).2.1 (by decide),
    (CheckAccessToken_status (Externals.sample ⟨[]⟩) 9
      ⟨EHttpRequestStatus.Succeeded⟩ ⟨200, "text/html", "json"⟩ true).2.2.1
      (some ⟨200, "text/html", "json"⟩)
      Status.kUnsupportedResponseContentTypeCode (by decide),
    (CheckAccessToken_status (Externals.sample ⟨[]⟩) 9
      ⟨EHttpRequestStatus.Failed_ConnectionError⟩ ⟨200, "text/html", "json"⟩
      false).2.2.2 rfl none⟩

/-- C18, the code at the failing input: the completion of `CheckAccessToken` on
a `401` response `application/json` whose document has
`error = "invalid_grant"` delivers `kInvalidGrantErrorCode` to the callback of
the check. -/
theorem CheckAccessToken_invalid_grant :
    CheckAccessToken.OnProcessRequestComplete
        (Externals.sample ⟨[("error", FJsonValue.String "invalid_grant"),
          ("error_description", FJsonValue.String "Bad Request")]⟩)
        9 ⟨EHttpRequestStatus.Succeeded⟩
        (some ⟨401, "application/json", "json"⟩) true =
      some [Event.AccessTokenCheckCallback 9 Status.kInvalidGrantErrorCode] := by
  decide

/-! ## Range of `ExpiresOn` -/

/-- C19, as stated, fails: at the non-negative time `1700000000`, a successful
refresh with `expires_in = -1700000001` delivers `ExpiresOn = -1`, and a
successful code exchange with `expires_in = -1700000001` delivers `-1` too. -/
theorem ExpiresOn_nonnegative_counterexample :
    RefreshAuthToken.OnProcessRequestComplete
        (Externals.sample ⟨[("access_token", FJsonValue.String "A"),
          ("expires_in", FJsonValue.Number (-1700000001))]⟩)
        1700000000 7 ⟨EHttpRequestStatus.Succeeded⟩
        (some ⟨200, "application/json", "json"⟩) true =
      some [Event.RefreshCallback 7 "A" (-1) Status.kSuccessCode] ∧
    CodeExchange.OnProcessRequestComplete
        (Externals.sample ⟨[("access_token", FJsonValue.String "A"),
          ("refresh_token", FJsonValue.String "R"),
          ("expires_in", FJsonValue.Number (-1700000001))]⟩)
        1700000000 1 ⟨EHttpRequestStatus.Succeeded⟩
        (some ⟨200, "application/json", "json"⟩) true =
      some [Event.ManualAuthenticationCallback 1 "A" (-1) "R"
        Status.kSuccessCode] := by
  decide

/-- C19, amended: for every successful refresh or code-exchange result, every
non-negative request time `Now` and every value `E` of `expires_in` in the
range of `int32` with `Now + E < 2^63`, the `ExpiresOn` delivered to the
callback is `Now + E`: it is `>= 0` exactly when `E >= -Now`. -/
theorem ExpiresOn_nonnegative (X : Externals) (Now E : Int) (Callback : Nat)
    (Request : FHttpRequest) (Response : Option FHttpResponse)
    (bWasSuccessful : Bool) (Data : FJsonObject) (Code : Status) (A : String)
    (hNow : 0 ≤ Now) (hInt32 : -2 ^ 31 ≤ E ∧ E < 2 ^ 31)
    (hHigh : Now + E < 2 ^ 63)
    (hOutcome : Classify X Request Response bWasSuccessful =
      some (RequestOutcome.Success Data Code))
    (hA : TMapFind Data.Values "access_token" = some (FJsonValue.String A))
    (hE : TMapFind Data.Values "expires_in" = some (FJsonValue.Number E)) :
    (∃ ExpiresOn : Int, (0 ≤ ExpiresOn ↔ -Now ≤ E) ∧ ExpiresOn = Now + E ∧
      RefreshAuthToken.OnProcessRequestComplete X Now Callback Request Response
          bWasSuccessful =
        some [Event.RefreshCallback Callback A ExpiresOn Status.kSuccessCode]) ∧
    (∀ R : String,
      TMapFind Data.Values "refresh_token" = some (FJsonValue.String R) →
      ∃ ExpiresOn : Int, (0 ≤ ExpiresOn ↔ -Now ≤ E) ∧ ExpiresOn = Now + E ∧
        CodeExchange.OnProcessRequestComplete X Now Callback Request Response
            bWasSuccessful =
          some [Event.ManualAuthenticationCallback Callback A ExpiresOn R
            Status.kSuccessCode]) := by
  have hLow : -2 ^ 63 ≤ Now + E := by
    have h := hInt32.1
    norm_num at h ⊢
    omega
  have hWrap : wrapInt64 (Now + E) = Now + E :=
    wrapInt64_of_range (Now + E) hLow hHigh
  have hCast : CastToInt32 X.Int32OutOfRange E = E :=
    CastToInt32_of_range _ E hInt32.1 hInt32.2
  have hSign : 0 ≤ Now + E ↔ -Now ≤ E := by
    constructor <;> intro h <;> omega
  constructor
  · refine ⟨Now + E, hSign, rfl, ?_⟩
    unfold RefreshAuthToken.OnProcessRequestComplete
    rw [HandleResultOfRequest_eq_Classify, hOutcome]
    simp [FJsonObject.TryGetStringField, FJsonObject.GetIntegerField,
      kGoogleRefreshTokenResponseAccessTokenField,
      kGoogleRefreshTokenResponseExpiresInField, hA, hE, hCast, hWrap]
  · intro R hR
    refine ⟨Now + E, hSign, rfl, ?_⟩
    unfold CodeExchange.OnProcessRequestComplete
    rw [HandleResultOfRequest_eq_Classify, hOutcome]
    simp [FJsonObject.TryGetStringField, FJsonObject.GetIntegerField,
      kCodeExchangeResponseAccessTokenField, kCodeExchangeResponseRefreshTokenField,
      kCodeExchangeResponseExpiresInField, hA, hR, hE, hCast, hWrap]

/-- Witness of C19 amended: `expires_in = -60` at time `1700000000`, for a
refresh and for a code exchange. -/
theorem ExpiresOn_nonnegative_witness :
    (∃ ExpiresOn : Int, (0 ≤ ExpiresOn ↔ -1700000000 ≤ (-60 : Int)) ∧
      ExpiresOn = 1700000000 + -60 ∧
      RefreshAuthToken.OnProcessRequestComplete
          (Externals.sample ⟨[("access_token", FJsonValue.String "A"),
            ("refresh_token", FJsonValue.String "R"),
            ("expires_in", FJsonValue.Number (-60))]⟩)
          1700000000 7 ⟨EHttpRequestStatus.Succeeded⟩
          (some ⟨200, "application/json", "json"⟩) true =
        some [Event.RefreshCallback 7 "A" ExpiresOn Status.kSuccessCode]) ∧
    (∃ ExpiresOn : Int, (0 ≤ ExpiresOn ↔ -1700000000 ≤ (-60 : Int)) ∧
      ExpiresOn = 1700000000 + -60 ∧
      CodeExchange.OnProcessRequestComplete
          (Externals.sample ⟨[("access_token", FJsonValue.String "A"),
            ("refresh_token", FJsonValue.String "R"),
            ("expires_in", FJsonValue.Number (-60))]⟩)
          1700000000 7 ⟨EHttpRequestStatus.Succeeded⟩
          (some ⟨200, "application/json", "json"⟩) true =
        some [Event.ManualAuthenticationCallback 7 "A" ExpiresOn "R"
          Status.kSuccessCode]) :=
  have h := ExpiresOn_nonnegative
    (Externals.sample ⟨[("access_token", FJsonValue.String "A"),
      ("refresh_token", FJsonValue.String "R"),
      ("expires_in", FJsonValue.Number (-60))]⟩)
    1700000000 (-60) 7 ⟨EHttpRequestStatus.Succeeded⟩
    (some ⟨200, "application/json", "json"⟩) true
    ⟨[("access_token", FJsonValue.String "A"),
      ("refresh_token", FJsonValue.String "R"),
      ("expires_in", FJsonValue.Number (-60))]⟩ Status.kSuccessCode "A"
    (by decide) (by decide) (by decide) (by decide) (by decide) (by decide)
  ⟨h.1, h.2 "R" (by decide)⟩

/-! ## Redirect without `code` and without `error` -/

/-- C20, the code at the failing input: on a redirect whose query has neither
`code` nor `error`, `HandleTheResultOfLoopbackAuthentication` dereferences the
null result of `Find` for its log line: the run has no result and the callback
is not invoked. -/
theorem HandleTheResultOfLoopbackAuthentication_no_code_no_error :
    HandleTheResultOfLoopbackAuthentication (Externals.sample ⟨[]⟩) 1 5
        "http://127.0.0.1:8080/google_oauth" "id" "secret"
        ⟨"/google_oauth", EHttpServerRequestVerbs.VERB_GET, []⟩ = none ∧
    HandleTheResultOfLoopbackAuthentication (Externals.sample ⟨[]⟩) 1 5
        "http://127.0.0.1:8080/google_oauth" "id" "secret"
        ⟨"/google_oauth", EHttpServerRequestVerbs.VERB_GET,
          [("state", "xyz")]⟩ = none := by
  decide

/-! ## One outcome per completed request -/

theorem Classify_of_response (X : Externals) (Request : FHttpRequest)
    (R : FHttpResponse) (b : Bool) :
    ∃ Outcome, Classify X Request (some R) b = some Outcome := by
  unfold Classify HandleResultOfRequest
  by_cases hConn : Request.Status = EHttpRequestStatus.Failed_ConnectionError
  · exact ⟨RequestOutcome.Failure Status.kConnectionErrorCode, by simp [hConn]⟩
  · simp only [ne_eq, hConn, not_false_eq_true, if_true]
    split_ifs <;> exact ⟨_, rfl⟩

/-- C21, the code at the failing input: at the completion of a request whose
status is `Failed` and that has no response object, `HandleResultOfRequest`
dereferences the null response: neither continuation is invoked, and the
completions of `RefreshAuthToken` and of `CheckAccessToken` do not invoke the
callback of the caller. -/
theorem HandleResultOfRequest_no_response :
    Classify (Externals.sample ⟨[]⟩) ⟨EHttpRequestStatus.Failed⟩ none false =
      none ∧
    RefreshAuthToken.OnProcessRequestComplete (Externals.sample ⟨[]⟩)
        1700000000 7 ⟨EHttpRequestStatus.Failed⟩ none false = none ∧
    CheckAccessToken.OnProcessRequestComplete (Externals.sample ⟨[]⟩) 9
        ⟨EHttpRequestStatus.Failed⟩ none false = none := by
  decide

end FGoogleDesktopOAuth

namespace GamepadDetection

/-! ## Maps and keys -/

theorem TMapFind_TMapAdd_self {κ β : Type} [DecidableEq κ] (Map : List (κ × β))
    (Key : κ) (Value : β) : TMapFind (TMapAdd Map Key Value) Key = some Value := by
  induction Map with
  | nil => simp [TMapAdd, TMapFind]
  | cons Entry Map ih =>
    obtain ⟨Key0, Value0⟩ := Entry
    by_cases h : Key0 = Key
    · simp [TMapAdd, TMapFind, h]
    · simp [TMapAdd, TMapFind, h, ih]

theorem TMapFind_TMapAdd_of_ne {κ β : Type} [DecidableEq κ] (Map : List (κ × β))
    (Key Other : κ) (Value : β) (hne : Other ≠ Key) :
    TMapFind (TMapAdd Map Key Value) Other = TMapFind Map Other := by
  induction Map with
  | nil => simp [TMapAdd, TMapFind, Ne.symm hne]
  | cons Entry Map ih =>
    obtain ⟨Key0, Value0⟩ := Entry
    by_cases h : Key0 = Key
    · subst h
      simp [TMapAdd, TMapFind, Ne.symm hne]
    · by_cases h2 : Key0 = Other
      · subst h2
        simp [TMapAdd, TMapFind, h]
      · simp [TMapAdd, TMapFind, h, h2, ih]

theorem ControllerKey_eq (VendorID ProductID : Nat) (hV : VendorID < 2 ^ 32)
    (hP : ProductID < 2 ^ 32) :
    ControllerKey VendorID ProductID = 2 ^ 32 * VendorID + ProductID := by
  unfold ControllerKey
  simp only [Nat.zero_or, Nat.shiftLeft_eq]
  rw [Nat.mod_eq_of_lt (by omega), Nat.mul_comm, ← Nat.mul_add_lt_is_or hP]

theorem ControllerKey_injective (V1 P1 V2 P2 : Nat) (hV1 : V1 < 2 ^ 32)
    (hP1 : P1 < 2 ^ 32) (hV2 : V2 < 2 ^ 32) (hP2 : P2 < 2 ^ 32)
    (h : ControllerKey V1 P1 = ControllerKey V2 P2) : V1 = V2 ∧ P1 = P2 := by
  rw [ControllerKey_eq V1 P1 hV1 hP1, ControllerKey_eq V2 P2 hV2 hP2] at h
  omega

/-! ## Steam-based detection -/

/-- C22, the code at the failing input: with the Steam strategy, Steam Input
available and initialised, the controllers `[PS4, Steam controller]` leave the
type `UNKNOWN_GAMEPAD` with `UNKNOWN_FAMILY`, and the controllers
`[PS4, XBox 360]` leave `XBOX_360_GAMEPAD` with `XBOX_FAMILY`: the last
controller of the list decides, not the first. -/
theorem UpdateGamepadTypeSteamBased_last_controller :
    ((FGamepadDetector.Constructor none).UpdateGamepadType
        ⟨some ⟨true, [ESteamInputType.k_ESteamInputType_PS4Controller,
          ESteamInputType.k_ESteamInputType_SteamController]⟩, []⟩).GetGamepadType =
      EGamepadType.UNKNOWN_GAMEPAD ∧
    ((FGamepadDetector.Constructor none).UpdateGamepadType
        ⟨some ⟨true, [ESteamInputType.k_ESteamInputType_PS4Controller,
          ESteamInputType.k_ESteamInputType_SteamController]⟩, []⟩).GetGamepadFamily =
      EGamepadFamily.UNKNOWN_FAMILY ∧
    ((FGamepadDetector.Constructor none).UpdateGamepadType
        ⟨some ⟨true, [ESteamInputType.k_ESteamInputType_PS4Controller,
          ESteamInputType.k_ESteamInputType_XBox360Controller]⟩, []⟩).GetGamepadType =
      EGamepadType.XBOX_360_GAMEPAD ∧
    ((FGamepadDetector.Constructor none).UpdateGamepadType
        ⟨some ⟨true, [ESteamInputType.k_ESteamInputType_PS4Controller,
          ESteamInputType.k_ESteamInputType_XBox360Controller]⟩,
          []⟩).GetGamepadFamily =
      EGamepadFamily.XBOX_FAMILY := by
  decide

/-- C23, the code at the failing input: a detector whose current type is
`PS4_GAMEPAD`, after an update with one PS4 controller, keeps `PS4_GAMEPAD`
and `PS_FAMILY` after an update in which Steam reports no controller. -/
theorem UpdateGamepadTypeSteamBased_no_controller :
    ((FGamepadDetector.Constructor none).UpdateGamepadType
        ⟨some ⟨true, [ESteamInputType.k_ESteamInputType_PS4Controller]⟩,
          []⟩).GetGamepadType = EGamepadType.PS4_GAMEPAD ∧
    (((FGamepadDetector.Constructor none).UpdateGamepadType
        ⟨some ⟨true, [ESteamInputType.k_ESteamInputType_PS4Controller]⟩,
          []⟩).UpdateGamepadType ⟨some ⟨true, []⟩, []⟩).GetGamepadType =
      EGamepadType.PS4_GAMEPAD ∧
    (((FGamepadDetector.Constructor none).UpdateGamepadType
        ⟨some ⟨true, [ESteamInputType.k_ESteamInputType_PS4Controller]⟩,
          []⟩).UpdateGamepadType ⟨some ⟨true, []⟩, []⟩).GetGamepadFamily =
      EGamepadFamily.PS_FAMILY := by
  decide

/-! ## Type and family -/

theorem FamilyMap_find (Type_ : EGamepadType) :
    TMapFind (FGamepadDetector.Constructor none).FamilyMap Type_ =
      some (DocumentedFamily Type_) := by
  cases Type_ <;> rfl

theorem Consistent_SetGamepadType (D : FGamepadDetector) (Type_ : EGamepadType)
    (hD : D.FamilyMap = (FGamepadDetector.Constructor none).FamilyMap) :
    (D.SetGamepadType Type_).Consistent ∧
      (D.SetGamepadType Type_).GamepadType = Type_ ∧
      (D.SetGamepadType Type_).ControllersMap = D.ControllersMap := by
  have hFind : TMapFind D.FamilyMap Type_ = some (DocumentedFamily Type_) := by
    rw [hD, FamilyMap_find]
  unfold FGamepadDetector.SetGamepadType FGamepadDetector.Consistent
  rw [hFind]
  exact ⟨⟨hD, rfl⟩, rfl, rfl⟩

theorem Consistent_Constructor (HIDManager : Option Nat) :
    (FGamepadDetector.Constructor HIDManager).Consistent ∧
      (FGamepadDetector.Constructor HIDManager).GamepadType =
        EGamepadType.UNKNOWN_GAMEPAD :=
  ⟨⟨rfl, rfl⟩, rfl⟩

theorem Consistent_FindAndSetGamepad (D : FGamepadDetector) (VendorID ProductID : Nat)
    (hD : D.Consistent) : (D.FindAndSetGamepad VendorID ProductID).2.Consistent := by
  unfold FGamepadDetector.FindAndSetGamepad
  split
  · exact (Consistent_SetGamepadType D _ hD.1).1
  · exact hD

theorem Consistent_FindFirstHID (D : FGamepadDetector) (hD : D.Consistent)
    (HIDs : List FHID) (Set : FGamepadDetector)
    (h : D.FindFirstHID HIDs = some Set) : Set.Consistent := by
  induction HIDs with
  | nil => simp [FGamepadDetector.FindFirstHID] at h
  | cons HID HIDs ih =>
    simp only [FGamepadDetector.FindFirstHID] at h
    split at h
    · simp only [Option.some.injEq] at h
      rw [← h]
      exact Consistent_FindAndSetGamepad D _ _ hD
    · exact ih h

theorem Consistent_UpdateGamepadTypeHIDBased (D : FGamepadDetector)
    (E : Environment) (hD : D.Consistent) :
    (D.UpdateGamepadTypeHIDBased E).Consistent := by
  unfold FGamepadDetector.UpdateGamepadTypeHIDBased
  cases D.HIDManager with
  | none => exact hD
  | some Manager =>
    cases hFind : D.FindFirstHID E.HIDs with
    | none =>
      simp only [hFind]
      exact (Consistent_SetGamepadType D _ hD.1).1
    | some Set =>
      simp only [hFind]
      exact Consistent_FindFirstHID D hD _ Set hFind

theorem Consistent_SetFromSteamInputType (D : FGamepadDetector)
    (InputType : ESteamInputType) (hD : D.Consistent) :
    (D.SetFromSteamInputType InputType).Consistent := by
  unfold FGamepadDetector.SetFromSteamInputType
  split <;> exact (Consistent_SetGamepadType D _ hD.1).1

theorem Consistent_foldl_SetFromSteamInputType (InputTypes : List ESteamInputType) :
    ∀ D : FGamepadDetector, D.Consistent →
      (InputTypes.foldl FGamepadDetector.SetFromSteamInputType D).Consistent := by
  induction InputTypes with
  | nil => intro D hD; exact hD
  | cons InputType InputTypes ih =>
    intro D hD
    exact ih _ (Consistent_SetFromSteamInputType D InputType hD)

theorem Consistent_UpdateGamepadType (D : FGamepadDetector) (E : Environment)
    (hD : D.Consistent) : (D.UpdateGamepadType E).Consistent := by
  unfold FGamepadDetector.UpdateGamepadType
    FGamepadDetector.UpdateGamepadTypeSteamBased
  by_cases hS : D.DetectionStrategy = EDetectionStrategy.STEAM_USING_STRATEGY
  · rw [if_pos hS]
    cases E.SteamInput with
    | none => exact Consistent_UpdateGamepadTypeHIDBased D E hD
    | some SteamInput =>
      have hD1 : (if (!D.bIsSteamInputInitialized) = true then
          { D with bIsSteamInputInitialized := SteamInput.Init }
          else D).Consistent := by
        split
        · exact hD
        · exact hD
      have hLoop : ∀ D1 : FGamepadDetector, D1.Consistent →
          (if D1.bIsSteamInputInitialized = true then
            SteamInput.ConnectedControllers.foldl
              FGamepadDetector.SetFromSteamInputType D1
            else D1).Consistent := by
        intro D1 h1
        split
        · exact Consistent_foldl_SetFromSteamInputType _ _ h1
        · exact h1
      exact hLoop _ hD1
  · rw [if_neg hS]
    exact Consistent_UpdateGamepadTypeHIDBased D E hD

theorem Consistent_Apply (D : FGamepadDetector) (Op : Operation)
    (hD : D.Consistent) : (D.Apply Op).Consistent := by
  cases Op with
  | UpdateGamepadType E => exact Consistent_UpdateGamepadType D E hD
  | SetDetectionStrategy S => exact hD
  | SetHIDManager M => exact hD
  | AddControllerSupport V P T => exact hD

theorem Consistent_ApplyAll (Operations : List Operation) :
    ∀ D : FGamepadDetector, D.Consistent → (D.ApplyAll Operations).Consistent := by
  induction Operations with
  | nil => intro D hD; exact hD
  | cons Op Operations ih =>
    intro D hD
    exact ih _ (Consistent_Apply D Op hD)

/-- C25: consistency of type and family. After the construction and after every
sequence of public operations (`UpdateGamepadType` with either strategy and
whatever Steam and the HID manager answer, `SetDetectionStrategy`,
`SetHIDManager`, `AddControllerSupport`), `GetGamepadFamily()` is the family
that the header documents for `GetGamepadType()`; and the type after the
construction is `UNKNOWN_GAMEPAD`. -/
theorem GamepadFamily_consistent (HIDManager : Option Nat)
    (Operations : List Operation) :
    ((FGamepadDetector.Constructor HIDManager).ApplyAll Operations).GetGamepadFamily =
      DocumentedFamily
        ((FGamepadDetector.Constructor HIDManager).ApplyAll
          Operations).GetGamepadType ∧
    (FGamepadDetector.Constructor HIDManager).GetGamepadType =
      EGamepadType.UNKNOWN_GAMEPAD ∧
    (FGamepadDetector.Constructor HIDManager).GetGamepadFamily =
      EGamepadFamily.UNKNOWN_FAMILY :=
  ⟨(Consistent_ApplyAll Operations _ (Consistent_Constructor HIDManager).1).2,
    rfl, rfl⟩

/-! ## HID-based detection -/

theorem RegisteredType_append (Registered : List (Nat × Nat × EGamepadType))
    (Entry : Nat × Nat × EGamepadType) (VendorID ProductID : Nat) :
    RegisteredType (Registered ++ [Entry]) VendorID ProductID =
      if Entry.1 = VendorID ∧ Entry.2.1 = ProductID then some Entry.2.2
      else RegisteredType Registered VendorID ProductID := by
  unfold RegisteredType
  simp only [List.reverse_append, List.reverse_cons, List.reverse_nil,
    List.nil_append, List.singleton_append, List.find?_cons]
  by_cases h : Entry.1 = VendorID ∧ Entry.2.1 = ProductID
  · simp [h]
  · have hb : (Entry.1 == VendorID && Entry.2.1 == ProductID) = false := by
      simpa [Bool.and_eq_false_iff, not_and_or] using h
    simp [h, hb]

theorem FindFirstHID_eq (D : FGamepadDetector) (f : FHID → Option EGamepadType)
    (HIDs : List FHID)
    (hf : ∀ HID ∈ HIDs,
      TMapFind D.ControllersMap (ControllerKey HID.VendorID HID.ProductID) = f HID) :
    D.FindFirstHID HIDs = (HIDs.findSome? f).map D.SetGamepadType := by
  induction HIDs with
  | nil => rfl
  | cons HID HIDs ih =>
    have h1 := hf HID (by simp)
    have ih2 := ih (fun h hh => hf h (by simp [hh]))
    simp only [FGamepadDetector.FindFirstHID, FGamepadDetector.FindAndSetGamepad,
      List.findSome?_cons, h1]
    cases f HID with
    | none => simpa using ih2
    | some Type_ => simp

theorem ControllersMap_SetGamepadType (D : FGamepadDetector)
    (Type_ : EGamepadType) :
    (D.SetGamepadType Type_).ControllersMap = D.ControllersMap := by
  unfold FGamepadDetector.SetGamepadType
  split <;> rfl

theorem ControllersMap_FindFirstHID (D : FGamepadDetector) (HIDs : List FHID)
    (Set : FGamepadDetector) (h : D.FindFirstHID HIDs = some Set) :
    Set.ControllersMap = D.ControllersMap := by
  induction HIDs with
  | nil => simp [FGamepadDetector.FindFirstHID] at h
  | cons HID HIDs ih =>
    simp only [FGamepadDetector.FindFirstHID] at h
    split at h
    · simp only [Option.some.injEq] at h
      rw [← h]
      unfold FGamepadDetector.FindAndSetGamepad
      split
      · exact ControllersMap_SetGamepadType D _
      · rfl
    · exact ih h

theorem ControllersMap_UpdateGamepadTypeHIDBased (D : FGamepadDetector)
    (E : Environment) :
    (D.UpdateGamepadTypeHIDBased E).ControllersMap = D.ControllersMap := by
  unfold FGamepadDetector.UpdateGamepadTypeHIDBased
  cases D.HIDManager with
  | none => rfl
  | some Manager =>
    cases hFind : D.FindFirstHID E.HIDs with
    | none =>
      simp only [hFind]
      exact ControllersMap_SetGamepadType D _
    | some Set =>
      simp only [hFind]
      exact ControllersMap_FindFirstHID D _ Set hFind

theorem ControllersMap_foldl_SetFromSteamInputType
    (InputTypes : List ESteamInputType) :
    ∀ D : FGamepadDetector,
      (InputTypes.foldl FGamepadDetector.SetFromSteamInputType D).ControllersMap =
        D.ControllersMap := by
  induction InputTypes with
  | nil => intro D; rfl
  | cons InputType InputTypes ih =>
    intro D
    have hStep : (D.SetFromSteamInputType InputType).ControllersMap =
        D.ControllersMap := by
      unfold FGamepadDetector.SetFromSteamInputType
      split <;> exact ControllersMap_SetGamepadType D _
    exact (ih _).trans hStep

theorem ControllersMap_UpdateGamepadType (D : FGamepadDetector) (E : Environment) :
    (D.UpdateGamepadType E).ControllersMap = D.ControllersMap := by
  unfold FGamepadDetector.UpdateGamepadType
    FGamepadDetector.UpdateGamepadTypeSteamBased
  by_cases hS : D.DetectionStrategy = EDetectionStrategy.STEAM_USING_STRATEGY
  · rw [if_pos hS]
    cases E.SteamInput with
    | none => exact ControllersMap_UpdateGamepadTypeHIDBased D E
    | some SteamInput =>
      have hD1 : (if (!D.bIsSteamInputInitialized) = true then
          { D with bIsSteamInputInitialized := SteamInput.Init }
          else D).ControllersMap = D.ControllersMap := by
        split
        · rfl
        · rfl
      have hLoop : ∀ D1 : FGamepadDetector,
          (if D1.bIsSteamInputInitialized = true then
            SteamInput.ConnectedControllers.foldl
              FGamepadDetector.SetFromSteamInputType D1
            else D1).ControllersMap = D1.ControllersMap := by
        intro D1
        split
        · exact ControllersMap_foldl_SetFromSteamInputType _ _
        · rfl
      exact (hLoop _).trans hD1
  · rw [if_neg hS]
    exact ControllersMap_UpdateGamepadTypeHIDBased D E

theorem Find_ApplyAll (D : FGamepadDetector) (Operations : List Operation)
    (hReg : ∀ Entry ∈ Registrations Operations,
      Entry.1 < 2 ^ 32 ∧ Entry.2.1 < 2 ^ 32)
    (VendorID ProductID : Nat) (hV : VendorID < 2 ^ 32) (hP : ProductID < 2 ^ 32) :
    TMapFind (D.ApplyAll Operations).ControllersMap
        (ControllerKey VendorID ProductID) =
      match RegisteredType (Registrations Operations) VendorID ProductID with
      | some Type_ => some Type_
      | none => TMapFind D.ControllersMap (ControllerKey VendorID ProductID) := by
  induction Operations using List.reverseRecOn with
  | nil => rfl
  | append_singleton Operations Op ih =>
    have hApply : D.ApplyAll (Operations ++ [Op]) =
        (D.ApplyAll Operations).Apply Op := by
      simp [FGamepadDetector.ApplyAll, List.foldl_append]
    rw [hApply]
    cases Op with
    | AddControllerSupport V0 P0 T0 =>
      have hRegs : Registrations
          (Operations ++ [Operation.AddControllerSupport V0 P0 T0]) =
          Registrations Operations ++ [(V0, P0, T0)] := by
        simp [Registrations, List.filterMap_append]
      rw [hRegs] at hReg
      rw [hRegs]
      have hEntry := hReg (V0, P0, T0) (by simp)
      have ih2 := ih (fun e he => hReg e (by simp [he]))
      rw [RegisteredType_append]
      show TMapFind (TMapAdd (D.ApplyAll Operations).ControllersMap
        (ControllerKey V0 P0) T0) _ = _
      by_cases h : (V0, P0, T0).1 = VendorID ∧ (V0, P0, T0).2.1 = ProductID
      · rw [if_pos h]
        have h1 : V0 = VendorID := h.1
        have h2 : P0 = ProductID := h.2
        rw [← h1, ← h2]
        exact TMapFind_TMapAdd_self _ _ _
      · rw [if_neg h]
        rw [← ih2]
        apply TMapFind_TMapAdd_of_ne
        intro hKey
        have hInj := ControllerKey_injective VendorID ProductID V0 P0
          hV hP hEntry.1 hEntry.2 hKey
        exact h ⟨hInj.1.symm, hInj.2.symm⟩
    | UpdateGamepadType E =>
      have hRegs : Registrations (Operations ++ [Operation.UpdateGamepadType E]) =
          Registrations Operations := by
        simp [Registrations, List.filterMap_append]
      rw [hRegs] at hReg
      rw [hRegs]
      show TMapFind ((D.ApplyAll Operations).UpdateGamepadType E).ControllersMap _ = _
      rw [ControllersMap_UpdateGamepadType]
      exact ih hReg
    | SetDetectionStrategy Strategy =>
      have hRegs : Registrations
          (Operations ++ [Operation.SetDetectionStrategy Strategy]) =
          Registrations Operations := by
        simp [Registrations, List.filterMap_append]
      rw [hRegs] at hReg
      rw [hRegs]
      exact ih hReg
    | SetHIDManager Manager =>
      have hRegs : Registrations (Operations ++ [Operation.SetHIDManager Manager]) =
          Registrations Operations := by
        simp [Registrations, List.filterMap_append]
      rw [hRegs] at hReg
      rw [hRegs]
      exact ih hReg

/-- C24: HID-based detection. Take the detector after the constructor and any
sequence of public operations (among them the calls of `AddControllerSupport`,
and earlier updates that may have set any type), in a state where a HID manager
is set and the traditional algorithm runs (`NO_STEAM_STRATEGY`, or Steam Input
not available). For every list of connected HIDs, after `UpdateGamepadType` the
current type is the registered type of the first HID of the list whose
`(VendorID, ProductID)` was registered through `AddControllerSupport`, and
`UNKNOWN_GAMEPAD` with `UNKNOWN_FAMILY` when no HID of the list is registered,
whatever the type was before; the family is the documented family of the
type. -/
theorem UpdateGamepadTypeHIDBased_first_registered (HIDManager : Option Nat)
    (History : List Operation) (Manager : Nat) (E : Environment)
    (hReg : ∀ Entry ∈ Registrations History,
      Entry.1 < 2 ^ 32 ∧ Entry.2.1 < 2 ^ 32)
    (hHIDs : ∀ HID ∈ E.HIDs, HID.VendorID < 2 ^ 32 ∧ HID.ProductID < 2 ^ 32)
    (hManager : ((FGamepadDetector.Constructor HIDManager).ApplyAll
      History).HIDManager = some Manager)
    (hTraditional : ((FGamepadDetector.Constructor HIDManager).ApplyAll
        History).DetectionStrategy = EDetectionStrategy.NO_STEAM_STRATEGY ∨
      E.SteamInput = none) :
    ((((FGamepadDetector.Constructor HIDManager).ApplyAll
        History).UpdateGamepadType E).GetGamepadType =
      ((E.HIDs.findSome?
        (fun HID => RegisteredType (Registrations History) HID.VendorID
          HID.ProductID)).getD EGamepadType.UNKNOWN_GAMEPAD)) ∧
    ((((FGamepadDetector.Constructor HIDManager).ApplyAll
        History).UpdateGamepadType E).GetGamepadFamily =
      DocumentedFamily ((E.HIDs.findSome?
        (fun HID => RegisteredType (Registrations History) HID.VendorID
          HID.ProductID)).getD EGamepadType.UNKNOWN_GAMEPAD)) ∧
    ((E.HIDs.findSome?
        (fun HID => RegisteredType (Registrations History) HID.VendorID
          HID.ProductID)) = none →
      (((FGamepadDetector.Constructor HIDManager).ApplyAll
          History).UpdateGamepadType E).GetGamepadType =
        EGamepadType.UNKNOWN_GAMEPAD ∧
      (((FGamepadDetector.Constructor HIDManager).ApplyAll
          History).UpdateGamepadType E).GetGamepadFamily =
        EGamepadFamily.UNKNOWN_FAMILY) := by
  generalize hD : (FGamepadDetector.Constructor HIDManager).ApplyAll History = D
    at hManager hTraditional ⊢
  have hConsistent : D.Consistent := by
    rw [← hD]
    exact Consistent_ApplyAll History _ (Consistent_Constructor HIDManager).1
  have hMap := hConsistent.1
  have hFind : ∀ HID ∈ E.HIDs,
      TMapFind D.ControllersMap (ControllerKey HID.VendorID HID.ProductID) =
        RegisteredType (Registrations History) HID.VendorID HID.ProductID := by
    intro HID hHID
    have h := Find_ApplyAll (FGamepadDetector.Constructor HIDManager)
      History hReg HID.VendorID HID.ProductID (hHIDs HID hHID).1
      (hHIDs HID hHID).2
    rw [hD] at h
    rw [h]
    cases RegisteredType (Registrations History) HID.VendorID HID.ProductID <;> rfl
  have hLoop := FindFirstHID_eq D _ E.HIDs hFind
  -- the traditional algorithm runs
  have hRuns : D.UpdateGamepadType E = D.UpdateGamepadTypeHIDBased E := by
    unfold FGamepadDetector.UpdateGamepadType
      FGamepadDetector.UpdateGamepadTypeSteamBased
    rcases hTraditional with h | h
    · rw [h]
      rfl
    · rw [h]
      split <;> rfl
  have hResult : D.UpdateGamepadTypeHIDBased E =
      D.SetGamepadType
        ((E.HIDs.findSome?
          (fun HID => RegisteredType (Registrations History) HID.VendorID
            HID.ProductID)).getD EGamepadType.UNKNOWN_GAMEPAD) := by
    unfold FGamepadDetector.UpdateGamepadTypeHIDBased
    rw [hManager]
    show (match D.FindFirstHID E.HIDs with
      | some Set => Set
      | none => _) = _
    rw [hLoop]
    cases E.HIDs.findSome?
        (fun HID => RegisteredType (Registrations History) HID.VendorID
          HID.ProductID) <;> rfl
  rw [hRuns, hResult]
  have h := Consistent_SetGamepadType D
    ((E.HIDs.findSome?
      (fun HID => RegisteredType (Registrations History) HID.VendorID
        HID.ProductID)).getD EGamepadType.UNKNOWN_GAMEPAD) hMap
  have h2 := h.1.2
  rw [h.2.1] at h2
  refine ⟨h.2.1, h2, ?_⟩
  intro hNone
  have h3 : (D.SetGamepadType
      ((E.HIDs.findSome?
        (fun HID => RegisteredType (Registrations History) HID.VendorID
          HID.ProductID)).getD EGamepadType.UNKNOWN_GAMEPAD)).GetGamepadType =
      ((E.HIDs.findSome?
        (fun HID => RegisteredType (Registrations History) HID.VendorID
          HID.ProductID)).getD EGamepadType.UNKNOWN_GAMEPAD) := h.2.1
  rw [hNone] at h3 h2 ⊢
  exact ⟨h3, h2⟩

/-- Witness of C24: two controllers are registered and an earlier update has
set the type `PS4_GAMEPAD`. An update with three connected HIDs, of which the
second and the third are registered, sets the type of the second; an update
with no registered HID sets `UNKNOWN_GAMEPAD` and `UNKNOWN_FAMILY`. -/
theorem UpdateGamepadTypeHIDBased_first_registered_witness :
    ((FGamepadDetector.Constructor none).ApplyAll
        [Operation.AddControllerSupport 1356 1476 EGamepadType.PS4_GAMEPAD,
          Operation.AddControllerSupport 1118 654 EGamepadType.XBOX_360_GAMEPAD,
          Operation.SetHIDManager (some 1),
          Operation.SetDetectionStrategy EDetectionStrategy.NO_STEAM_STRATEGY,
          Operation.UpdateGamepadType
            ⟨none, [⟨"pad", 1356, 1476⟩]⟩]).GetGamepadType =
      EGamepadType.PS4_GAMEPAD ∧
    ((((FGamepadDetector.Constructor none).ApplyAll
        [Operation.AddControllerSupport 1356 1476 EGamepadType.PS4_GAMEPAD,
          Operation.AddControllerSupport 1118 654 EGamepadType.XBOX_360_GAMEPAD,
          Operation.SetHIDManager (some 1),
          Operation.SetDetectionStrategy EDetectionStrategy.NO_STEAM_STRATEGY,
          Operation.UpdateGamepadType
            ⟨none, [⟨"pad", 1356, 1476⟩]⟩]).UpdateGamepadType
        ⟨none, [⟨"keyboard", 1133, 49948⟩, ⟨"pad", 1118, 654⟩,
          ⟨"other pad", 1356, 1476⟩]⟩).GetGamepadType =
      EGamepadType.XBOX_360_GAMEPAD) ∧
    ((((FGamepadDetector.Constructor none).ApplyAll
        [Operation.AddControllerSupport 1356 1476 EGamepadType.PS4_GAMEPAD,
          Operation.AddControllerSupport 1118 654 EGamepadType.XBOX_360_GAMEPAD,
          Operation.SetHIDManager (some 1),
          Operation.SetDetectionStrategy EDetectionStrategy.NO_STEAM_STRATEGY,
          Operation.UpdateGamepadType
            ⟨none, [⟨"pad", 1356, 1476⟩]⟩]).UpdateGamepadType
        ⟨none, [⟨"keyboard", 1133, 49948⟩]⟩).GetGamepadType =
      EGamepadType.UNKNOWN_GAMEPAD ∧
    (((FGamepadDetector.Constructor none).ApplyAll
        [Operation.AddControllerSupport 1356 1476 EGamepadType.PS4_GAMEPAD,
          Operation.AddControllerSupport 1118 654 EGamepadType.XBOX_360_GAMEPAD,
          Operation.SetHIDManager (some 1),
          Operation.SetDetectionStrategy EDetectionStrategy.NO_STEAM_STRATEGY,
          Operation.UpdateGamepadType
            ⟨none, [⟨"pad", 1356, 1476⟩]⟩]).UpdateGamepadType
        ⟨none, [⟨"keyboard", 1133, 49948⟩]⟩).GetGamepadFamily =
      EGamepadFamily.UNKNOWN_FAMILY) := by
  have hFound := (UpdateGamepadTypeHIDBased_first_registered none
    [Operation.AddControllerSupport 1356 1476 EGamepadType.PS4_GAMEPAD,
      Operation.AddControllerSupport 1118 654 EGamepadType.XBOX_360_GAMEPAD,
      Operation.SetHIDManager (some 1),
      Operation.SetDetectionStrategy EDetectionStrategy.NO_STEAM_STRATEGY,
      Operation.UpdateGamepadType ⟨none, [⟨"pad", 1356, 1476⟩]⟩] 1
    ⟨none, [⟨"keyboard", 1133, 49948⟩, ⟨"pad", 1118, 654⟩,
      ⟨"other pad", 1356, 1476⟩]⟩
    (by decide) (by decide) (by decide) (Or.inl (by decide))).1
  have hNone := (UpdateGamepadTypeHIDBased_first_registered none
    [Operation.AddControllerSupport 1356 1476 EGamepadType.PS4_GAMEPAD,
      Operation.AddControllerSupport 1118 654 EGamepadType.XBOX_360_GAMEPAD,
      Operation.SetHIDManager (some 1),
      Operation.SetDetectionStrategy EDetectionStrategy.NO_STEAM_STRATEGY,
      Operation.UpdateGamepadType ⟨none, [⟨"pad", 1356, 1476⟩]⟩] 1
    ⟨none, [⟨"keyboard", 1133, 49948⟩]⟩
    (by decide) (by decide) (by decide) (Or.inl (by decide))).2.2 (by decide)
  exact ⟨by decide, hFound.trans (by decide), hNone⟩

/-! ## Key of a controller -/

/-- C27: the key is injective. For all 32-bit vendor and product ids, the key
`(VendorID << 32) | ProductID` of two pairs is equal only if the vendor ids are
equal and the product ids are equal; so after
`AddControllerSupport(VendorID, ProductID, Type)`,
`FindAndSetGamepad(VendorID, ProductID)` returns `true` and sets the type
`Type`, and the lookup of every other pair is unchanged. -/
theorem ControllerKey_packing (D : FGamepadDetector)
    (VendorID ProductID : Nat) (Type_ : EGamepadType)
    (OtherVendorID OtherProductID : Nat)
    (hV : VendorID < 2 ^ 32) (hP : ProductID < 2 ^ 32)
    (hOV : OtherVendorID < 2 ^ 32) (hOP : OtherProductID < 2 ^ 32) :
    (ControllerKey VendorID ProductID = ControllerKey OtherVendorID OtherProductID →
      VendorID = OtherVendorID ∧ ProductID = OtherProductID) ∧
    ((D.AddControllerSupport VendorID ProductID Type_).FindAndSetGamepad VendorID
      ProductID).1 = true ∧
    ((D.AddControllerSupport VendorID ProductID Type_).FindAndSetGamepad VendorID
      ProductID).2.GetGamepadType = Type_ ∧
    (¬ (OtherVendorID = VendorID ∧ OtherProductID = ProductID) →
      TMapFind (D.AddControllerSupport VendorID ProductID Type_).ControllersMap
          (ControllerKey OtherVendorID OtherProductID) =
        TMapFind D.ControllersMap (ControllerKey OtherVendorID OtherProductID) ∧
      ((D.AddControllerSupport VendorID ProductID Type_).FindAndSetGamepad
          OtherVendorID OtherProductID).1 =
        (D.FindAndSetGamepad OtherVendorID OtherProductID).1) := by
  have hSelf : TMapFind (D.AddControllerSupport VendorID ProductID Type_).ControllersMap
      (ControllerKey VendorID ProductID) = some Type_ :=
    TMapFind_TMapAdd_self _ _ _
  refine ⟨ControllerKey_injective _ _ _ _ hV hP hOV hOP, ?_, ?_, ?_⟩
  · unfold FGamepadDetector.FindAndSetGamepad
    rw [hSelf]
  · unfold FGamepadDetector.FindAndSetGamepad
    rw [hSelf]
    show ((D.AddControllerSupport VendorID ProductID Type_).SetGamepadType
      Type_).GamepadType = Type_
    unfold FGamepadDetector.SetGamepadType
    cases TMapFind (D.AddControllerSupport VendorID ProductID Type_).FamilyMap
      Type_ <;> rfl
  · intro hOther
    have hKey : ControllerKey OtherVendorID OtherProductID ≠
        ControllerKey VendorID ProductID := by
      intro h
      exact hOther (ControllerKey_injective _ _ _ _ hOV hOP hV hP h)
    have hFind : TMapFind
        (D.AddControllerSupport VendorID ProductID Type_).ControllersMap
        (ControllerKey OtherVendorID OtherProductID) =
        TMapFind D.ControllersMap (ControllerKey OtherVendorID OtherProductID) :=
      TMapFind_TMapAdd_of_ne _ _ _ _ hKey
    refine ⟨hFind, ?_⟩
    unfold FGamepadDetector.FindAndSetGamepad
    rw [hFind]
    cases TMapFind D.ControllersMap (ControllerKey OtherVendorID OtherProductID) <;>
      rfl

/-- Witness of C27: the pair `(1356, 1476)` is added; the pair `(1476, 1356)`
has another key and its lookup is unchanged. -/
theorem ControllerKey_packing_witness :
    ControllerKey 1356 1476 = 5823975654852 ∧
    ControllerKey 1476 1356 = 6339371730252 ∧
    (((FGamepadDetector.Constructor none).AddControllerSupport 1356 1476
      EGamepadType.PS4_GAMEPAD).FindAndSetGamepad 1356 1476).1 = true ∧
    (((FGamepadDetector.Constructor none).AddControllerSupport 1356 1476
      EGamepadType.PS4_GAMEPAD).FindAndSetGamepad 1356 1476).2.GetGamepadType =
      EGamepadType.PS4_GAMEPAD ∧
    (((FGamepadDetector.Constructor none).AddControllerSupport 1356 1476
      EGamepadType.PS4_GAMEPAD).FindAndSetGamepad 1476 1356).1 =
      ((FGamepadDetector.Constructor none).FindAndSetGamepad 1476 1356).1 := by
  have h := ControllerKey_packing (FGamepadDetector.Constructor none) 1356 1476
    EGamepadType.PS4_GAMEPAD 1476 1356 (by decide) (by decide) (by decide)
    (by decide)
  exact ⟨by decide, by decide, h.2.1, h.2.2.1, (h.2.2.2 (by decide)).2⟩

end GamepadDetection

namespace RequestLoader

theorem LexOf_le_iff (a b c a2 b2 c2 : Int) :
    LexOf a b c ≤ LexOf a2 b2 c2 ↔
      a < a2 ∨ (a = a2 ∧ (b < b2 ∨ (b = b2 ∧ c ≤ c2))) := by
  unfold LexOf
  rw [Prod.Lex.le_iff]
  simp only
  rw [Prod.Lex.le_iff]

theorem LexOf_lt_iff (a b c a2 b2 c2 : Int) :
    LexOf a b c < LexOf a2 b2 c2 ↔
      a < a2 ∨ (a = a2 ∧ (b < b2 ∨ (b = b2 ∧ c < c2))) := by
  unfold LexOf
  rw [Prod.Lex.lt_iff]
  simp only
  rw [Prod.Lex.lt_iff]

theorem CheckVersionsCompatibility_iff (V : PluginVersion) (Required : FVersion) :
    CheckVersionsCompatibility V Required = true ↔
      LexOf Required.Major Required.Minor Required.Index ≤
        LexOf V.VERSION_MAJOR V.VERSION_MINOR V.VERSION_INDEX := by
  rw [LexOf_le_iff]
  unfold CheckVersionsCompatibility
  simp only [Bool.or_eq_true, Bool.and_eq_true, decide_eq_true_eq, gt_iff_lt, ge_iff_le]
  constructor
  · rintro ((h | ⟨h1, h2⟩) | ⟨⟨h1, h2⟩, h3⟩)
    · exact Or.inl h
    · exact Or.inr ⟨h1.symm, Or.inl h2⟩
    · exact Or.inr ⟨h1.symm, Or.inr ⟨h2.symm, h3⟩⟩
  · rintro (h | ⟨h1, h2 | ⟨h2, h3⟩⟩)
    · exact Or.inl (Or.inl h)
    · exact Or.inl (Or.inr ⟨h1.symm, h2⟩)
    · exact Or.inr ⟨⟨h1.symm, h2.symm⟩, h3⟩

/-- C26: `CheckVersionsCompatibility` returns `true` if and only if the required
minimal version `(Major, Minor, Index)` is at most the version of the plugin
`(VERSION_MAJOR, VERSION_MINOR, VERSION_INDEX)` in the lexicographic order;
hence a plugin compatible with a required version is compatible with every
required version below it, and `LoadRequest` returns no request whenever the
required version is lexicographically greater than the version of the
plugin. -/
theorem CheckVersionsCompatibility_lexicographic (V : PluginVersion)
    (Required : FVersion) :
    (CheckVersionsCompatibility V Required = true ↔
      LexOf Required.Major Required.Minor Required.Index ≤
        LexOf V.VERSION_MAJOR V.VERSION_MINOR V.VERSION_INDEX) ∧
    (∀ Lower : FVersion,
      CheckVersionsCompatibility V Required = true →
      LexOf Lower.Major Lower.Minor Lower.Index ≤
        LexOf Required.Major Required.Minor Required.Index →
      CheckVersionsCompatibility V Lower = true) ∧
    (∀ (RetrieveContents : String) (RequestDeserializer : IRequestDeserializer),
      RequestDeserializer.ExtractVersion RetrieveContents = Required →
      LexOf V.VERSION_MAJOR V.VERSION_MINOR V.VERSION_INDEX <
        LexOf Required.Major Required.Minor Required.Index →
      LoadRequest V RetrieveContents RequestDeserializer = none) := by
  refine ⟨CheckVersionsCompatibility_iff V Required, ?_, ?_⟩
  · intro Lower hCompatible hLower
    rw [CheckVersionsCompatibility_iff] at hCompatible ⊢
    exact le_trans hLower hCompatible
  · intro RetrieveContents RequestDeserializer hVersion hGreater
    have hNot : CheckVersionsCompatibility V Required = false := by
      cases hC : CheckVersionsCompatibility V Required with
      | false => rfl
      | true =>
        rw [CheckVersionsCompatibility_iff] at hC
        exact absurd hGreater (not_lt.mpr hC)
    unfold LoadRequest
    simp [hVersion, hNot]

/-- Witness of C26: the plugin `1.2.3` is compatible with `1.2.3` and hence
with `1.1.9`, and a request that requires `1.3.0` is not loaded. -/
theorem CheckVersionsCompatibility_lexicographic_witness :
    CheckVersionsCompatibility ⟨1, 2, 3⟩ ⟨1, 1, 9⟩ = true ∧
    LoadRequest ⟨1, 2, 3⟩ "contents"
      ⟨fun _ => ⟨1, 3, 0⟩, fun Contents => some ⟨Contents⟩⟩ = none :=
  ⟨(CheckVersionsCompatibility_lexicographic ⟨1, 2, 3⟩ ⟨1, 2, 3⟩).2.1 ⟨1, 1, 9⟩
      (by decide)
      ((LexOf_le_iff 1 1 9 1 2 3).mpr (by decide)),
    (CheckVersionsCompatibility_lexicographic ⟨1, 2, 3⟩ ⟨1, 3, 0⟩).2.2 "contents"
      ⟨fun _ => ⟨1, 3, 0⟩, fun Contents => some ⟨Contents⟩⟩ rfl
      ((LexOf_lt_iff 1 2 3 1 3 0).mpr (by decide))⟩

end RequestLoader

namespace K1MailSystem

theorem SendMailToPlayers_nil {σ : Type} (B : UK1BackendCommunication σ)
    (State : σ) (Serialized : List Nat) :
    SendMailToPlayers B State [] Serialized = (State, []) := by
  rw [SendMailToPlayers]
  simp

theorem SendMailToPlayers_concat {σ : Type} (B : UK1BackendCommunication σ)
    (State : σ) (Ids : List Int) (Id : Int) (Serialized : List Nat) :
    SendMailToPlayers B State (Ids ++ [Id]) Serialized =
      ((SendMailToPlayers B
          (B.SetAllPlayerData (B.GetMinNextPlayerInventoryIndex State Id).1 "" ""
            { PlayerId := Id
              AddedPlayerInventoryData :=
                [{ PlayerId := Id, InventoryItemDataBytes := Serialized,
                   Index := (B.GetMinNextPlayerInventoryIndex State Id).2 }] }).1
          Ids Serialized).1,
        [MailEvent.GetMinNextPlayerInventoryIndex Id,
          MailEvent.SetAllPlayerData
            { PlayerId := Id
              AddedPlayerInventoryData :=
                [{ PlayerId := Id, InventoryItemDataBytes := Serialized,
                   Index := (B.GetMinNextPlayerInventoryIndex State Id).2 }] },
          MailEvent.Broadcast (wrapInt32 Id)
            (decide ((B.SetAllPlayerData
              (B.GetMinNextPlayerInventoryIndex State Id).1 "" ""
              { PlayerId := Id
                AddedPlayerInventoryData :=
                  [{ PlayerId := Id, InventoryItemDataBytes := Serialized,
                     Index := (B.GetMinNextPlayerInventoryIndex State Id).2 }] }).2 =
              EFlushResult.Success))
            Ids.length] ++
        (SendMailToPlayers B
          (B.SetAllPlayerData (B.GetMinNextPlayerInventoryIndex State Id).1 "" ""
            { PlayerId := Id
              AddedPlayerInventoryData :=
                [{ PlayerId := Id, InventoryItemDataBytes := Serialized,
                   Index := (B.GetMinNextPlayerInventoryIndex State Id).2 }] }).1
          Ids Serialized).2) := by
  rw [SendMailToPlayers]
  simp

/-- C28: batch mail delivery. With a backend that invokes each continuation
once, for every list of `n` player ids `SendMailToPlayers` is total: it asks the
free index and flushes once for every id, in reverse list order (last id
first), and broadcasts `OnMailRequestResult` exactly `n` times, with `Left`
taking the values `n-1, n-2, ..., 0` in that order, whatever the results of the
flushes are; for the empty list there is no backend call and no broadcast. -/
theorem SendMailToPlayers_batch {σ : Type} (B : UK1BackendCommunication σ)
    (Serialized : List Nat) (Ids : List Int) :
    ∀ State : σ,
      IndexRequests (SendMailToPlayers B State Ids Serialized).2 = Ids.reverse ∧
      FlushRequests (SendMailToPlayers B State Ids Serialized).2 = Ids.reverse ∧
      BroadcastLefts (SendMailToPlayers B State Ids Serialized).2 =
        (List.range Ids.length).reverse.map (fun k : Nat => (k : Int)) ∧
      (BroadcastLefts (SendMailToPlayers B State Ids Serialized).2).length =
        Ids.length ∧
      (SendMailToPlayers B State Ids Serialized).2.length = 3 * Ids.length ∧
      SendMailToPlayers B State [] Serialized = (State, []) := by
  induction Ids using List.reverseRecOn with
  | nil =>
    intro State
    rw [SendMailToPlayers_nil]
    exact ⟨rfl, rfl, rfl, rfl, rfl, rfl⟩
  | append_singleton Ids Id ih =>
    intro State
    obtain ⟨h1, h2, h3, h4, h5, -⟩ := ih
      (B.SetAllPlayerData (B.GetMinNextPlayerInventoryIndex State Id).1 "" ""
        { PlayerId := Id
          AddedPlayerInventoryData :=
            [{ PlayerId := Id, InventoryItemDataBytes := Serialized,
               Index := (B.GetMinNextPlayerInventoryIndex State Id).2 }] }).1
    rw [SendMailToPlayers_concat]
    refine ⟨?_, ?_, ?_, ?_, ?_, SendMailToPlayers_nil B State Serialized⟩
    · simp [IndexRequests, h1]
    · simp [FlushRequests, h2]
    · simp [BroadcastLefts, h3, List.range_succ]
    · simp [BroadcastLefts, h4]
    · simp only [List.cons_append, List.nil_append, List.length_cons, h5,
        List.length_append, List.length_nil]
      omega

/-- A run on the ids `[10, 20, 30]` where the flush of player `20` fails: the
broadcast of `20` carries `false` and the delivery goes on to player `10`. -/
theorem SendMailToPlayers_failed_flush :
    (SendMailToPlayers (UK1BackendCommunication.sample 20) 0 [10, 20, 30] [1, 2]).2 =
      [MailEvent.GetMinNextPlayerInventoryIndex 30,
        MailEvent.SetAllPlayerData ⟨30, [⟨30, [1, 2], 0⟩]⟩,
        MailEvent.Broadcast 30 true 2,
        MailEvent.GetMinNextPlayerInventoryIndex 20,
        MailEvent.SetAllPlayerData ⟨20, [⟨20, [1, 2], 2⟩]⟩,
        MailEvent.Broadcast 20 false 1,
        MailEvent.GetMinNextPlayerInventoryIndex 10,
        MailEvent.SetAllPlayerData ⟨10, [⟨10, [1, 2], 4⟩]⟩,
        MailEvent.Broadcast 10 true 0] := by
  have h3 := SendMailToPlayers_concat (UK1BackendCommunication.sample 20) 0
    [10, 20] 30 [1, 2]
  have h2 := SendMailToPlayers_concat (UK1BackendCommunication.sample 20) 2
    [10] 20 [1, 2]
  have h1 := SendMailToPlayers_concat (UK1BackendCommunication.sample 20) 4
    [] 10 [1, 2]
  have h0 := SendMailToPlayers_nil (UK1BackendCommunication.sample 20) 6 [1, 2]
  simp only [List.nil_append, List.cons_append, List.singleton_append] at h1 h2 h3
  simp only [UK1BackendCommunication.sample] at h0 h1 h2 h3 ⊢
  rw [h3]
  simp only [h2, h1, h0]
  decide

end K1MailSystem
